import Mathlib

/-!
Verification of the CEX cryptographic library core: the Keccak-256 digest
(sequential and fan-out finalization), the CFB/CBC cipher modes' parallel
decryption, the RHX block cipher's key-size and round validation, and the
zero-byte padding scheme.  Machine integers are modelled as `Nat` with
explicit reduction modulo `2 ^ 64` where 64-bit overflow matters; byte
vectors are `List Nat` of values below 256.  For kernel-computable
evaluation the Keccak permutation carries its 25 64-bit lanes packed into a
single natural number (lane `i` at bits `[64 * i, 64 * i + 64)`); the
digest-level code from `Keccak256.cpp` works on the lane list and converts
at the permutation boundary.
-/

set_option maxRecDepth 100000

/-- The 25-lane (64-bit each) Keccak sponge state as a lane list, row-major:
lane (x, y) at index `x + 5 * y`. -/
abbrev KState := List Nat

/-- Lane accessor with default 0 (out-of-range reads never occur on
well-formed states). -/
def lane (s : KState) (i : Nat) : Nat := s.getD i 0

/-- 64-bit rotate left of `x` by `n` (used with `x < 2 ^ 64`, `0 < n < 64`). -/
def rotl64 (x n : Nat) : Nat := ((x <<< n) % (2 ^ 64)) ||| (x >>> (64 - n))

/-- 64-bit bitwise complement. -/
def bnot64 (x : Nat) : Nat := x ^^^ (2 ^ 64 - 1)

/-- Extract 64-bit lane `i` from the packed 1600-bit state. -/
def pkLane (s i : Nat) : Nat := (s >>> (64 * i)) &&& (2 ^ 64 - 1)

/-- The 24 standard Keccak round constants (decimal). -/
def keccakRC : List Nat :=
  [1, 32898, 9223372036854808714, 9223372039002292224, 32907, 2147483649,
   9223372039002292353, 9223372036854808585, 138, 136, 2147516425, 2147483658,
   2147516555, 9223372036854775947, 9223372036854808713, 9223372036854808579,
   9223372036854808578, 9223372036854775936, 32778, 9223372039002259466,
   9223372039002292353, 9223372036854808704, 2147483649, 9223372039002292232]

/-- One Keccak-f[1600] round (theta, rho, pi, chi, iota) on the packed
1600-bit state, with round constant `rc`.  Lane (x, y) occupies bits
[64 * (x + 5 * y), 64 * (x + 5 * y) + 64); the rotation offsets are the
standard Keccak values. -/
def keccakRoundP (s rc : Nat) : Nat :=
  let s0 := pkLane s 0
  let s1 := pkLane s 1
  let s2 := pkLane s 2
  let s3 := pkLane s 3
  let s4 := pkLane s 4
  let s5 := pkLane s 5
  let s6 := pkLane s 6
  let s7 := pkLane s 7
  let s8 := pkLane s 8
  let s9 := pkLane s 9
  let s10 := pkLane s 10
  let s11 := pkLane s 11
  let s12 := pkLane s 12
  let s13 := pkLane s 13
  let s14 := pkLane s 14
  let s15 := pkLane s 15
  let s16 := pkLane s 16
  let s17 := pkLane s 17
  let s18 := pkLane s 18
  let s19 := pkLane s 19
  let s20 := pkLane s 20
  let s21 := pkLane s 21
  let s22 := pkLane s 22
  let s23 := pkLane s 23
  let s24 := pkLane s 24
  let c0 := s0 ^^^ s5 ^^^ s10 ^^^ s15 ^^^ s20
  let c1 := s1 ^^^ s6 ^^^ s11 ^^^ s16 ^^^ s21
  let c2 := s2 ^^^ s7 ^^^ s12 ^^^ s17 ^^^ s22
  let c3 := s3 ^^^ s8 ^^^ s13 ^^^ s18 ^^^ s23
  let c4 := s4 ^^^ s9 ^^^ s14 ^^^ s19 ^^^ s24
  let d0 := c4 ^^^ rotl64 c1 1
  let d1 := c0 ^^^ rotl64 c2 1
  let d2 := c1 ^^^ rotl64 c3 1
  let d3 := c2 ^^^ rotl64 c4 1
  let d4 := c3 ^^^ rotl64 c0 1
  let a0 := s0 ^^^ d0
  let a1 := s1 ^^^ d1
  let a2 := s2 ^^^ d2
  let a3 := s3 ^^^ d3
  let a4 := s4 ^^^ d4
  let a5 := s5 ^^^ d0
  let a6 := s6 ^^^ d1
  let a7 := s7 ^^^ d2
  let a8 := s8 ^^^ d3
  let a9 := s9 ^^^ d4
  let a10 := s10 ^^^ d0
  let a11 := s11 ^^^ d1
  let a12 := s12 ^^^ d2
  let a13 := s13 ^^^ d3
  let a14 := s14 ^^^ d4
  let a15 := s15 ^^^ d0
  let a16 := s16 ^^^ d1
  let a17 := s17 ^^^ d2
  let a18 := s18 ^^^ d3
  let a19 := s19 ^^^ d4
  let a20 := s20 ^^^ d0
  let a21 := s21 ^^^ d1
  let a22 := s22 ^^^ d2
  let a23 := s23 ^^^ d3
  let a24 := s24 ^^^ d4
  let b0 := a0
  let b1 := rotl64 a6 44
  let b2 := rotl64 a12 43
  let b3 := rotl64 a18 21
  let b4 := rotl64 a24 14
  let b5 := rotl64 a3 28
  let b6 := rotl64 a9 20
  let b7 := rotl64 a10 3
  let b8 := rotl64 a16 45
  let b9 := rotl64 a22 61
  let b10 := rotl64 a1 1
  let b11 := rotl64 a7 6
  let b12 := rotl64 a13 25
  let b13 := rotl64 a19 8
  let b14 := rotl64 a20 18
  let b15 := rotl64 a4 27
  let b16 := rotl64 a5 36
  let b17 := rotl64 a11 10
  let b18 := rotl64 a17 15
  let b19 := rotl64 a23 56
  let b20 := rotl64 a2 62
  let b21 := rotl64 a8 55
  let b22 := rotl64 a14 39
  let b23 := rotl64 a15 41
  let b24 := rotl64 a21 2
  let e0 := b0 ^^^ (bnot64 b1 &&& b2) ^^^ rc
  let e1 := b1 ^^^ (bnot64 b2 &&& b3)
  let e2 := b2 ^^^ (bnot64 b3 &&& b4)
  let e3 := b3 ^^^ (bnot64 b4 &&& b0)
  let e4 := b4 ^^^ (bnot64 b0 &&& b1)
  let e5 := b5 ^^^ (bnot64 b6 &&& b7)
  let e6 := b6 ^^^ (bnot64 b7 &&& b8)
  let e7 := b7 ^^^ (bnot64 b8 &&& b9)
  let e8 := b8 ^^^ (bnot64 b9 &&& b5)
  let e9 := b9 ^^^ (bnot64 b5 &&& b6)
  let e10 := b10 ^^^ (bnot64 b11 &&& b12)
  let e11 := b11 ^^^ (bnot64 b12 &&& b13)
  let e12 := b12 ^^^ (bnot64 b13 &&& b14)
  let e13 := b13 ^^^ (bnot64 b14 &&& b10)
  let e14 := b14 ^^^ (bnot64 b10 &&& b11)
  let e15 := b15 ^^^ (bnot64 b16 &&& b17)
  let e16 := b16 ^^^ (bnot64 b17 &&& b18)
  let e17 := b17 ^^^ (bnot64 b18 &&& b19)
  let e18 := b18 ^^^ (bnot64 b19 &&& b15)
  let e19 := b19 ^^^ (bnot64 b15 &&& b16)
  let e20 := b20 ^^^ (bnot64 b21 &&& b22)
  let e21 := b21 ^^^ (bnot64 b22 &&& b23)
  let e22 := b22 ^^^ (bnot64 b23 &&& b24)
  let e23 := b23 ^^^ (bnot64 b24 &&& b20)
  let e24 := b24 ^^^ (bnot64 b20 &&& b21)
  e0 + (e1 <<< 64) + (e2 <<< 128) + (e3 <<< 192) + (e4 <<< 256) + (e5 <<< 320) +
    (e6 <<< 384) + (e7 <<< 448) + (e8 <<< 512) + (e9 <<< 576) + (e10 <<< 640) +
    (e11 <<< 704) + (e12 <<< 768) + (e13 <<< 832) + (e14 <<< 896) + (e15 <<< 960) +
    (e16 <<< 1024) + (e17 <<< 1088) + (e18 <<< 1152) + (e19 <<< 1216) + (e20 <<< 1280) +
    (e21 <<< 1344) + (e22 <<< 1408) + (e23 <<< 1472) + (e24 <<< 1536)

/-- Pack a 25-lane list into the 1600-bit state number. -/
def pack25 (s : KState) : Nat :=
  (List.range 25).foldl (fun acc i => acc + ((lane s i % 2 ^ 64) <<< (64 * i))) 0

/-- Unpack the 1600-bit state number into the 25-lane list. -/
def unpack25 (s : Nat) : KState := (List.range 25).map (fun i => pkLane s i)

/-- Modelled from the spec: the Keccak-f[1600] permutation (`Keccak.h` /
`Keccak.cpp` are absent from the source tree): 24 rounds of theta, rho, pi,
chi, iota with the standard round constants and rotation offsets, on 25
64-bit lanes. -/
def keccakF (s : KState) : KState :=
  unpack25 (keccakRC.foldl keccakRoundP (pack25 s))

/-- Little-endian byte list to unsigned integer. -/
def leU64 (bs : List Nat) : Nat := bs.foldr (fun b a => b % 256 + 256 * a) 0

/-- The eight little-endian bytes of a 64-bit lane. -/
def u64Bytes (x : Nat) : List Nat :=
  [x % 256, x / 256 % 256, x / 256 ^ 2 % 256, x / 256 ^ 3 % 256,
   x / 256 ^ 4 % 256, x / 256 ^ 5 % 256, x / 256 ^ 6 % 256, x / 256 ^ 7 % 256]

/-- Modelled from the spec: `Keccak::Permute(Input, InOffset, 136, H)`
(implementation absent from the source tree): XOR the 136-byte rate block at
the given offset into the first 17 lanes of the state (little-endian) and
apply Keccak-f[1600].  The offset is applied by the caller via
`(block.drop off).take 136`. -/
def Keccak.Permute (s : KState) (block : List Nat) : KState :=
  keccakF ((List.range 25).map (fun i =>
    if i < 17 then lane s i ^^^ leU64 ((block.drop (8 * i)).take 8) else lane s i))

/-- A freshly reset sponge state (all lanes zero). -/
def freshState : KState := List.replicate 25 0

/-! ## Keccak256.cpp: digest-level operations (translated from the source) -/

/-- The five-lane bitwise-NOT performed at the end of `Keccak256::HashFinal`
(lanes 1, 2, 8, 12, 17, inverted in sequence). -/
def invertLanes5 (s : KState) : KState :=
  let s1 := s.set 1 (bnot64 (lane s 1))
  let s2 := s1.set 2 (bnot64 (lane s1 2))
  let s3 := s2.set 8 (bnot64 (lane s2 8))
  let s4 := s3.set 12 (bnot64 (lane s3 12))
  s4.set 17 (bnot64 (lane s4 17))

/-- Modelled from the spec: `IntUtils::LeULL256ToBlock` (`IntUtils` absent
from the source tree): serialize the first four 64-bit lanes to 32 bytes in
little-endian order. -/
def leULL256 (s : KState) : List Nat :=
  u64Bytes (lane s 0) ++ u64Bytes (lane s 1) ++ u64Bytes (lane s 2) ++ u64Bytes (lane s 3)

/-- `Keccak256::HashFinal(Input, InOffset, Length, State)`: append the domain
byte 0x01 at `off + len`, OR 0x80 into the byte at `off + 135`, permute over
the 136-byte window at `off`, and invert lanes 1, 2, 8, 12, 17.  Returns the
mutated buffer together with the new state. -/
def Keccak256.HashFinal (buf : List Nat) (off len : Nat) (st : KState) :
    List Nat × KState :=
  let b1 := buf.set (off + len) 1
  let b2 := b1.set (off + 135) (b1.getD (off + 135) 0 ||| 128)
  (b2, invertLanes5 (Keccak.Permute st ((b2.drop off).take 136)))

/-- The `while (Length >= BLOCK_SIZE)` loop of the sequential branch of
`Keccak256::Update`: permute full 136-byte blocks from the front of `m`,
returning the state and the remaining tail.  The fuel argument (first) bounds
the recursion; `absorbBlocks` supplies `m.length`, which always suffices. -/
def absorbBlocksF : Nat → KState → List Nat → KState × List Nat
  | 0, st, m => (st, m)
  | f + 1, st, m =>
    if m.length < 136 then (st, m)
    else absorbBlocksF f (Keccak.Permute st (m.take 136)) (m.drop 136)

/-- Absorb all full 136-byte blocks from the front of `m`. -/
def absorbBlocks (st : KState) (m : List Nat) : KState × List Nat :=
  absorbBlocksF m.length st m

/-- The sequential branch of `Keccak256::Update(Input, InOffset, Length)`.
The digest state is the sponge state paired with the buffered message bytes
(`m_msgBuffer` up to `m_msgLength`).  An empty input returns immediately; a
non-empty buffer that would reach 136 bytes is filled and permuted; then full
blocks are absorbed directly and the tail is buffered. -/
def Keccak256.Update (st : KState × List Nat) (input : List Nat) :
    KState × List Nat :=
  if input.length = 0 then st
  else if st.2.length ≠ 0 ∧ 136 ≤ st.2.length + input.length then
    absorbBlocks (Keccak.Permute st.1 (st.2 ++ input.take (136 - st.2.length)))
      (input.drop (136 - st.2.length))
  else
    ((absorbBlocks st.1 input).1, st.2 ++ (absorbBlocks st.1 input).2)

/-- The sequential branch of `Keccak256::Finalize`: zero the buffer beyond
`m_msgLength`, run `HashFinal` on it at offset 0, and serialize the first
four lanes. -/
def Keccak256.FinalizeSeq (st : KState × List Nat) : List Nat :=
  let full := st.2 ++ List.replicate (136 - st.2.length) 0
  leULL256 (Keccak256.HashFinal full 0 st.2.length st.1).2

/-- `Keccak256::Compute(Input, Output)` in sequential mode: update from a
fresh state, then finalize. -/
def Keccak256.Compute (input : List Nat) : List Nat :=
  Keccak256.FinalizeSeq (Keccak256.Update (freshState, []) input)

/-- The validation performed by `Keccak256::ParallelMaxDegree(Degree)`:
throws when the degree is zero, exceeds 254, or is odd. -/
def Keccak256.ParallelMaxDegreeThrows (d : Nat) : Bool :=
  decide (d = 0) || decide (254 < d) || decide (d % 2 ≠ 0)

/-- Modelled from the spec: `MemUtils::Copy` into a byte buffer at an offset
(`MemUtils` absent from the source tree): overwrite `vs.length` bytes of
`buf` starting at `off`. -/
def setRange (buf : List Nat) (off : Nat) (vs : List Nat) : List Nat :=
  buf.take off ++ vs ++ buf.drop (off + vs.length)

/-- The `while (m_msgLength != 0)` leaf-finalization loop of the parallel
branch of `Keccak256::Finalize`: finalize consecutive leaf states over the
residual buffered bytes, 136 bytes per leaf, until the residue is consumed.
Fuel-bounded recursion; `Keccak256.LeafLoop` supplies fuel `len`. -/
def Keccak256.LeafLoopF :
    Nat → List Nat → List KState → Nat → Nat → List Nat × List KState
  | 0, buf, sts, _, _ => (buf, sts)
  | f + 1, buf, sts, blk, len =>
    if len = 0 then (buf, sts)
    else
      let rmd := min 136 len
      let p := Keccak256.HashFinal buf (136 * blk) rmd (sts.getD blk [])
      Keccak256.LeafLoopF f p.1 (sts.set blk p.2) (blk + 1) (len - rmd)

/-- Leaf-finalization loop starting at leaf 0 with residual length `len`. -/
def Keccak256.LeafLoop (buf : List Nat) (sts : List KState) (len : Nat) :
    List Nat × List KState :=
  Keccak256.LeafLoopF len buf sts 0 len

/-- The chaining-value write of the parallel branch of `Keccak256::Finalize`:
for each leaf state in order, serialize its first four lanes to 32 bytes into
the message buffer at consecutive 32-byte offsets. -/
def Keccak256.WriteChain : List KState → List Nat → Nat → List Nat
  | [], buf, _ => buf
  | st :: rest, buf, off => Keccak256.WriteChain rest (setRange buf off (leULL256 st)) (off + 32)

/-- The parallel (fan-out) branch of `Keccak256::Finalize`: zero-pad the
buffer beyond the residue, finalize the leaves covered by the residue, write
the leaves' 32-byte chaining values into the buffer, compress the full
136-byte blocks of chaining data into a fresh root state, and finalize the
root over the remainder. -/
def Keccak256.FinalizePar (sts : List KState) (buf : List Nat) (len : Nat) :
    List Nat :=
  let buf0 := buf.take len ++ List.replicate (buf.length - len) 0
  let p := Keccak256.LeafLoop buf0 sts len
  let buf2 := Keccak256.WriteChain p.2 p.1 0
  let M := 32 * sts.length
  if 136 < M then
    let nb := M / 136
    let root := (List.range nb).foldl
      (fun st i => Keccak.Permute st ((buf2.drop (136 * i)).take 136)) freshState
    leULL256 (Keccak256.HashFinal buf2 (136 * nb) (M % 136) root).2
  else
    leULL256 (Keccak256.HashFinal buf2 0 M freshState).2

/-- The finalization of one leaf with no residual buffered bytes, as the
sequential mode would perform it (what the spec asserts happens to every
leaf): pad an empty 136-byte block and run `HashFinal` on the leaf state. -/
def specLeafChainEmpty (st : KState) : List Nat :=
  leULL256 (Keccak256.HashFinal (List.replicate 136 0) 0 0 st).2

/-- The fan-out finalization described by the spec for the case of no
residual buffered bytes: every leaf is finalized as in sequential mode, and a
fresh root state absorbs the concatenation of the D chaining values and is
finalized. -/
def specTreeFinalizeNoResidual (sts : List KState) : List Nat :=
  Keccak256.FinalizeSeq (Keccak256.Update (freshState, []) (sts.map specLeafChainEmpty).flatten)

/-! ## CFB and CBC cipher modes (decryption), modelled from the spec -/

/-- Byte-wise XOR of two equal-length blocks. -/
def xorBlock (a b : List Nat) : List Nat := a.zipWith (fun x y => x ^^^ y) b

/-- Modelled from the spec: serial CFB decryption (`CFB::Decrypt128` /
`CFB::DecryptSegment`, implementation absent from the source tree): for each
ciphertext block C, output C XOR E(R) where R is the register (the IV for the
first block), then set the register to C. -/
def CFB.DecryptSerial (E : List Nat → List Nat) (r : List Nat) :
    List (List Nat) → List (List Nat)
  | [] => []
  | c :: cs => xorBlock c (E r) :: CFB.DecryptSerial E c cs

/-- Modelled from the spec: `CFB::DecryptParallel` (implementation absent
from the source tree): the ciphertext is split into contiguous segments;
segment 0 starts from the IV, and each later segment's initial register is
the final ciphertext block of the preceding segment, read directly from the
input; each segment is decrypted serially and independently. -/
def CFB.DecryptParallel (E : List Nat → List Nat) (r : List Nat) :
    List (List (List Nat)) → List (List Nat)
  | [] => []
  | seg :: rest => CFB.DecryptSerial E r seg ++ CFB.DecryptParallel E (seg.getLastD r) rest

/-- Modelled from the spec: serial CBC decryption (`CBC::DecryptBlock` /
`CBC::ProcessDecrypt`, implementation absent from the source tree): for each
ciphertext block C, output D(C) XOR R, then set the register to C. -/
def CBC.DecryptSerial (D : List Nat → List Nat) (r : List Nat) :
    List (List Nat) → List (List Nat)
  | [] => []
  | c :: cs => xorBlock (D c) r :: CBC.DecryptSerial D c cs

/-- Modelled from the spec: `CBC::ParallelDecrypt` (implementation absent
from the source tree), with the same segment rule as CFB. -/
def CBC.ParallelDecrypt (D : List Nat → List Nat) (r : List Nat) :
    List (List (List Nat)) → List (List Nat)
  | [] => []
  | seg :: rest => CBC.DecryptSerial D r seg ++ CBC.ParallelDecrypt D (seg.getLastD r) rest

/-! ## RHX: key-size table and validation -/

/-- The `_legalKeySizes` table built in the `RHX` constructor: the four
standard sizes 16, 24, 32, 64, then for index i in [4, 14) the value
(salt-size * (i - 3)) + ikm-size, where `H` is the KDF digest's output (IKM)
size and `S` its block (salt) size. -/
def RHX.LegalKeySizesTable (H S : Nat) : List Nat :=
  [16, 24, 32, 64] ++ (List.range 10).map (fun n => S * (n + 1) + H)

/-- The rounds validation of the `RHX` constructor: throws when
`Rounds < 10 || Rounds > 38 || Rounds % 2 > 0`. -/
def RHX.CtorRoundsThrows (rounds : Nat) : Bool :=
  decide (rounds < 10) || decide (38 < rounds) || decide (rounds % 2 > 0)

/-- Modelled from the spec: the key-length validation of `RHX::Initialize`
(`RHX.cpp` absent from the source tree): the key length must be a member of
the legal-key-sizes table. -/
def RHX.KeyLengthValid (H S keyLen : Nat) : Bool :=
  (RHX.LegalKeySizesTable H S).contains keyLen

inductive RHX.SetupError where
  | invalidRounds : RHX.SetupError
  | invalidKey : RHX.SetupError
deriving DecidableEq

/-- Setting up RHX: the constructor validates the rounds count, then
`Initialize` validates the key length (modelled from the spec for the part
of `RHX.cpp` absent from the source tree). -/
def RHX.Setup (H S rounds keyLen : Nat) : Except RHX.SetupError Unit :=
  if RHX.CtorRoundsThrows rounds then .error .invalidRounds
  else if !RHX.KeyLengthValid H S keyLen then .error .invalidKey
  else .ok ()

/-! ## ZeroPad.cpp (translated from the source) -/

/-- The `while (Offset < Input.size())` zero-fill loop of
`ZeroPad::AddPadding`, returning the mutated vector and the value
`Input.size() - Offset` computed from the final offset.  Fuel-bounded
recursion; `ZeroPad.AddPadding` supplies `input.length - offset`. -/
def ZeroPad.FillF : Nat → List Nat → Nat → List Nat × Nat
  | 0, input, off => (input, input.length - off)
  | f + 1, input, off =>
    if off < input.length then ZeroPad.FillF f (input.set off 0) (off + 1)
    else (input, input.length - off)

/-- `ZeroPad::AddPadding(Input, Offset)`: throws when `Offset` exceeds the
vector length, otherwise zero-fills from `Offset` to the end and returns the
new vector with the function's return value. -/
def ZeroPad.AddPadding (input : List Nat) (off : Nat) :
    Except String (List Nat × Nat) :=
  if input.length < off then
    .error "The padding offset value is longer than the array length!"
  else .ok (ZeroPad.FillF (input.length - off) input off)

/-!
## RHX: the Rijndael cipher on 32-byte blocks, modelled from the spec

`RHX.cpp` (`StandardExpand`, `Encrypt32`, `Decrypt32`) is absent from the
source tree; the cipher is modelled from the spec: the FIPS-197 round
function with block width 32 (8 columns, ShiftRows offsets 0, 1, 3, 4), the
FIPS-197 key expansion with Nk = 8 and the standard rounds count 14 chosen
automatically for 32-byte keys.  The 32-byte state is packed into a single
natural number with byte 4 * c + r (row r, column c) at bits
[8 * (4 * c + r), 8 * (4 * c + r) + 8); tables are packed 256-entry byte
tables.  The model reproduces the Rijndael-256-256 vectors of the
repository's RijndaelTest table.
-/

/-- The FIPS-197 S-box, packed: entry b at bits [8 * b, 8 * b + 8). -/
def sboxN : Nat := 2869618975290639062594974519597816386035077209210385677284518162336985023502962151465775969507961862820568736543004676439868535775640188584098917533413284844376797297285941524888791401501466624530423689326528054213168201056672989590893583853414110162539122864583953358348775951166211353578440977400428507475679327181038682772945817200201960445064847785221508011893952350688324234443749897213621340677040612747745615276448919507935121141307752692835344166708617454322778699219895865633266409040561742768581056182730443599545881830075941537620590442514083341749674612746994879540562701631131184186066652929592955206755

/-- The inverse S-box, packed likewise. -/
def invSboxN : Nat := 15785769749828884342349381641981096363179738000380205650940338083111619982568718420166261191398703005748170232611805704157196303061330872280026969925224128193193768962594508714770967646139604422718174787315048227180018877623049221087186576642191304514338137614235628241783007805847129270530950856841486400764657112140097236091222567730363620332611309375046737430203438830593833719428588466121688739068564421474273450162064709239629809347626728710072303178617319436726577534667237755444692000788692193415136619289353224918429728194544458916874716857284226411602766869706570927007876872095880586785662942963508062062930

/-- GF(2^8) multiplication by 2 modulo x^8+x^4+x^3+x+1, packed likewise. -/
def gmul2N : Nat := 29022917302579095964124461949858013542724473648904841737866655790348712823699949138665809059499827693295928210552345624834464780210271501149743171624365253056144549668571949842842198483757917673820358967127239403036664387516565901472030220598252923801785930419531446491996907423676964199699175720602385906879680083903485254308339209678552217320138528911198260519229634791478122061432032516214484371579815631342231930258222337365598820086254069662275554781838914121458546816731767637215947301122829170181878307081147920335390477421409014593779889526109499260042632138652359755563522403016050871885672224018346954457600

/-- GF(2^8) multiplication by 3 modulo x^8+x^4+x^3+x+1, packed likewise. -/
def gmul3N : Nat := 3294578057314658763267795712291423816875059784912772658549463737549614411501588429758163946129753963063094138685936871067770203650430612434195375948676499621860626057286767866984606329430300288249694230977817309640410368608817684755278168616531299385557605244291578639565002013689251056656080034747730775106792247717826926486880909667003158817235872845726171190436001294868070851495559292814071128771808507251916148301013813934405585832966327353734581929782276709735716474759982539751455303458650918273922349256448297540981134095574432763667425412741570921087470081050522780756614773559216063798844346245016564663040

/-- GF(2^8) multiplication by 9 modulo x^8+x^4+x^3+x+1, packed likewise. -/
def gmul9N : Nat := 8875800206676231233701243093037991435892820171169916784212686138618272775022945573285003956930101804132570244180486893696338426119125697617487505053305019391078452041171720238582278824352345150014134608923380002411540182399855297251710853225217122628921227208582311712405524813144982781242696704635609266321940544417729379922905250356217345749200516009654420718585965795693028792943576298910991546489194988553624796944920535299482344994524418256347438720733242826317236165094751904288306059757648895161575829661503528205507542121434477288647604052975262540305993897881349643805951627695476696173059092458303168579840

/-- GF(2^8) multiplication by 11 modulo x^8+x^4+x^3+x+1, packed likewise. -/
def gmul11N : Nat := 20660037681057546434569796275159181838479904952512643273806643507766143283772057439060419035649261649766718144834351654274951171845491047146754362976279371340404592299720552026658750495605700011811481807106698209471695919590040201347318860671359017121701880798234681581037134898319689396355614186019758485717054749992248840995940992615458479053327988302541455430365511788916032458251381176675035888998960581052066836736929713860795351891151396512863268422787562719967588893482144796700121704512809072848513166322741200632883769161354058857808590875411713191597258555324046859665658420153755880783648214387959407184640

/-- GF(2^8) multiplication by 13 modulo x^8+x^4+x^3+x+1, packed likewise. -/
def gmul13N : Nat := 19138196848495869605120511558559239350965271065994991961240301511853740095611541283376038542306365123738129448692639514603083014128499463859328439565186102911611069345000827123701362194545999439720750984632977195243846286362462415909436277106797479059866551396947858323319980774417875675921867639957502891587465414444830963643657688594257097630455894848761410270925351913738136053681726757806999801729198632017884776933148886006414664898098777819019295640819165685098721075686948126956433128788785326234477653004815354437539193788019007304928778657778656315023763906850773490198904399435119974847211450672131266448640

/-- GF(2^8) multiplication by 14 modulo x^8+x^4+x^3+x+1, packed likewise. -/
def gmul14N : Nat := 17864480014884770448341771077560609799285446646958910005847266087176511584336450046277440330989852911982032248350016470062144232722313878833555006445368793394394110529483499328924098050678867718825055588086459160420708307799758563350760248515731481671490350979629499887553466166785595932366127294347362177681962304276728524400718028523154997411546527350275384898504348386776929690162748186352725508860704250747799418330300045848129211501812703387466121761170394370004206798559078089019730874660581757631840806018117816157917699717536029034409891165085778749802507617890945859671717747346411418272250830228758462205440

/-- Packed 256-entry byte-table lookup. -/
def tbl (t b : Nat) : Nat := (t >>> (8 * (b % 256))) &&& 255

/-- One full encryption round on the packed 32-byte state: SubBytes,
ShiftRows (offsets 0, 1, 3, 4 over 8 columns), MixColumns, AddRoundKey.
Byte 4 * c + r of the state sits at bits [8 * (4 * c + r), ...). -/
def rhxEncRound (s k : Nat) : Nat :=
  let t0 := (s >>> 0) &&& 255
  let t1 := (s >>> 8) &&& 255
  let t2 := (s >>> 16) &&& 255
  let t3 := (s >>> 24) &&& 255
  let t4 := (s >>> 32) &&& 255
  let t5 := (s >>> 40) &&& 255
  let t6 := (s >>> 48) &&& 255
  let t7 := (s >>> 56) &&& 255
  let t8 := (s >>> 64) &&& 255
  let t9 := (s >>> 72) &&& 255
  let t10 := (s >>> 80) &&& 255
  let t11 := (s >>> 88) &&& 255
  let t12 := (s >>> 96) &&& 255
  let t13 := (s >>> 104) &&& 255
  let t14 := (s >>> 112) &&& 255
  let t15 := (s >>> 120) &&& 255
  let t16 := (s >>> 128) &&& 255
  let t17 := (s >>> 136) &&& 255
  let t18 := (s >>> 144) &&& 255
  let t19 := (s >>> 152) &&& 255
  let t20 := (s >>> 160) &&& 255
  let t21 := (s >>> 168) &&& 255
  let t22 := (s >>> 176) &&& 255
  let t23 := (s >>> 184) &&& 255
  let t24 := (s >>> 192) &&& 255
  let t25 := (s >>> 200) &&& 255
  let t26 := (s >>> 208) &&& 255
  let t27 := (s >>> 216) &&& 255
  let t28 := (s >>> 224) &&& 255
  let t29 := (s >>> 232) &&& 255
  let t30 := (s >>> 240) &&& 255
  let t31 := (s >>> 248) &&& 255
  let u0 := tbl sboxN t0
  let u1 := tbl sboxN t5
  let u2 := tbl sboxN t14
  let u3 := tbl sboxN t19
  let u4 := tbl sboxN t4
  let u5 := tbl sboxN t9
  let u6 := tbl sboxN t18
  let u7 := tbl sboxN t23
  let u8 := tbl sboxN t8
  let u9 := tbl sboxN t13
  let u10 := tbl sboxN t22
  let u11 := tbl sboxN t27
  let u12 := tbl sboxN t12
  let u13 := tbl sboxN t17
  let u14 := tbl sboxN t26
  let u15 := tbl sboxN t31
  let u16 := tbl sboxN t16
  let u17 := tbl sboxN t21
  let u18 := tbl sboxN t30
  let u19 := tbl sboxN t3
  let u20 := tbl sboxN t20
  let u21 := tbl sboxN t25
  let u22 := tbl sboxN t2
  let u23 := tbl sboxN t7
  let u24 := tbl sboxN t24
  let u25 := tbl sboxN t29
  let u26 := tbl sboxN t6
  let u27 := tbl sboxN t11
  let u28 := tbl sboxN t28
  let u29 := tbl sboxN t1
  let u30 := tbl sboxN t10
  let u31 := tbl sboxN t15
  ((tbl gmul2N u0 ^^^ tbl gmul3N u1 ^^^ u2 ^^^ u3) ^^^ ((k >>> 0) &&& 255)) + (((u0 ^^^ tbl gmul2N u1 ^^^ tbl gmul3N u2 ^^^ u3) ^^^ ((k >>> 8) &&& 255)) <<< 8) + (((u0 ^^^ u1 ^^^ tbl gmul2N u2 ^^^ tbl gmul3N u3) ^^^ ((k >>> 16) &&& 255)) <<< 16) + (((tbl gmul3N u0 ^^^ u1 ^^^ u2 ^^^ tbl gmul2N u3) ^^^ ((k >>> 24) &&& 255)) <<< 24) +
    (((tbl gmul2N u4 ^^^ tbl gmul3N u5 ^^^ u6 ^^^ u7) ^^^ ((k >>> 32) &&& 255)) <<< 32) + (((u4 ^^^ tbl gmul2N u5 ^^^ tbl gmul3N u6 ^^^ u7) ^^^ ((k >>> 40) &&& 255)) <<< 40) + (((u4 ^^^ u5 ^^^ tbl gmul2N u6 ^^^ tbl gmul3N u7) ^^^ ((k >>> 48) &&& 255)) <<< 48) + (((tbl gmul3N u4 ^^^ u5 ^^^ u6 ^^^ tbl gmul2N u7) ^^^ ((k >>> 56) &&& 255)) <<< 56) +
    (((tbl gmul2N u8 ^^^ tbl gmul3N u9 ^^^ u10 ^^^ u11) ^^^ ((k >>> 64) &&& 255)) <<< 64) + (((u8 ^^^ tbl gmul2N u9 ^^^ tbl gmul3N u10 ^^^ u11) ^^^ ((k >>> 72) &&& 255)) <<< 72) + (((u8 ^^^ u9 ^^^ tbl gmul2N u10 ^^^ tbl gmul3N u11) ^^^ ((k >>> 80) &&& 255)) <<< 80) + (((tbl gmul3N u8 ^^^ u9 ^^^ u10 ^^^ tbl gmul2N u11) ^^^ ((k >>> 88) &&& 255)) <<< 88) +
    (((tbl gmul2N u12 ^^^ tbl gmul3N u13 ^^^ u14 ^^^ u15) ^^^ ((k >>> 96) &&& 255)) <<< 96) + (((u12 ^^^ tbl gmul2N u13 ^^^ tbl gmul3N u14 ^^^ u15) ^^^ ((k >>> 104) &&& 255)) <<< 104) + (((u12 ^^^ u13 ^^^ tbl gmul2N u14 ^^^ tbl gmul3N u15) ^^^ ((k >>> 112) &&& 255)) <<< 112) + (((tbl gmul3N u12 ^^^ u13 ^^^ u14 ^^^ tbl gmul2N u15) ^^^ ((k >>> 120) &&& 255)) <<< 120) +
    (((tbl gmul2N u16 ^^^ tbl gmul3N u17 ^^^ u18 ^^^ u19) ^^^ ((k >>> 128) &&& 255)) <<< 128) + (((u16 ^^^ tbl gmul2N u17 ^^^ tbl gmul3N u18 ^^^ u19) ^^^ ((k >>> 136) &&& 255)) <<< 136) + (((u16 ^^^ u17 ^^^ tbl gmul2N u18 ^^^ tbl gmul3N u19) ^^^ ((k >>> 144) &&& 255)) <<< 144) + (((tbl gmul3N u16 ^^^ u17 ^^^ u18 ^^^ tbl gmul2N u19) ^^^ ((k >>> 152) &&& 255)) <<< 152) +
    (((tbl gmul2N u20 ^^^ tbl gmul3N u21 ^^^ u22 ^^^ u23) ^^^ ((k >>> 160) &&& 255)) <<< 160) + (((u20 ^^^ tbl gmul2N u21 ^^^ tbl gmul3N u22 ^^^ u23) ^^^ ((k >>> 168) &&& 255)) <<< 168) + (((u20 ^^^ u21 ^^^ tbl gmul2N u22 ^^^ tbl gmul3N u23) ^^^ ((k >>> 176) &&& 255)) <<< 176) + (((tbl gmul3N u20 ^^^ u21 ^^^ u22 ^^^ tbl gmul2N u23) ^^^ ((k >>> 184) &&& 255)) <<< 184) +
    (((tbl gmul2N u24 ^^^ tbl gmul3N u25 ^^^ u26 ^^^ u27) ^^^ ((k >>> 192) &&& 255)) <<< 192) + (((u24 ^^^ tbl gmul2N u25 ^^^ tbl gmul3N u26 ^^^ u27) ^^^ ((k >>> 200) &&& 255)) <<< 200) + (((u24 ^^^ u25 ^^^ tbl gmul2N u26 ^^^ tbl gmul3N u27) ^^^ ((k >>> 208) &&& 255)) <<< 208) + (((tbl gmul3N u24 ^^^ u25 ^^^ u26 ^^^ tbl gmul2N u27) ^^^ ((k >>> 216) &&& 255)) <<< 216) +
    (((tbl gmul2N u28 ^^^ tbl gmul3N u29 ^^^ u30 ^^^ u31) ^^^ ((k >>> 224) &&& 255)) <<< 224) + (((u28 ^^^ tbl gmul2N u29 ^^^ tbl gmul3N u30 ^^^ u31) ^^^ ((k >>> 232) &&& 255)) <<< 232) + (((u28 ^^^ u29 ^^^ tbl gmul2N u30 ^^^ tbl gmul3N u31) ^^^ ((k >>> 240) &&& 255)) <<< 240) + (((tbl gmul3N u28 ^^^ u29 ^^^ u30 ^^^ tbl gmul2N u31) ^^^ ((k >>> 248) &&& 255)) <<< 248)

/-- The final encryption round: SubBytes, ShiftRows, AddRoundKey (no
MixColumns). -/
def rhxEncLast (s k : Nat) : Nat :=
  let t0 := (s >>> 0) &&& 255
  let t1 := (s >>> 8) &&& 255
  let t2 := (s >>> 16) &&& 255
  let t3 := (s >>> 24) &&& 255
  let t4 := (s >>> 32) &&& 255
  let t5 := (s >>> 40) &&& 255
  let t6 := (s >>> 48) &&& 255
  let t7 := (s >>> 56) &&& 255
  let t8 := (s >>> 64) &&& 255
  let t9 := (s >>> 72) &&& 255
  let t10 := (s >>> 80) &&& 255
  let t11 := (s >>> 88) &&& 255
  let t12 := (s >>> 96) &&& 255
  let t13 := (s >>> 104) &&& 255
  let t14 := (s >>> 112) &&& 255
  let t15 := (s >>> 120) &&& 255
  let t16 := (s >>> 128) &&& 255
  let t17 := (s >>> 136) &&& 255
  let t18 := (s >>> 144) &&& 255
  let t19 := (s >>> 152) &&& 255
  let t20 := (s >>> 160) &&& 255
  let t21 := (s >>> 168) &&& 255
  let t22 := (s >>> 176) &&& 255
  let t23 := (s >>> 184) &&& 255
  let t24 := (s >>> 192) &&& 255
  let t25 := (s >>> 200) &&& 255
  let t26 := (s >>> 208) &&& 255
  let t27 := (s >>> 216) &&& 255
  let t28 := (s >>> 224) &&& 255
  let t29 := (s >>> 232) &&& 255
  let t30 := (s >>> 240) &&& 255
  let t31 := (s >>> 248) &&& 255
  let u0 := tbl sboxN t0
  let u1 := tbl sboxN t5
  let u2 := tbl sboxN t14
  let u3 := tbl sboxN t19
  let u4 := tbl sboxN t4
  let u5 := tbl sboxN t9
  let u6 := tbl sboxN t18
  let u7 := tbl sboxN t23
  let u8 := tbl sboxN t8
  let u9 := tbl sboxN t13
  let u10 := tbl sboxN t22
  let u11 := tbl sboxN t27
  let u12 := tbl sboxN t12
  let u13 := tbl sboxN t17
  let u14 := tbl sboxN t26
  let u15 := tbl sboxN t31
  let u16 := tbl sboxN t16
  let u17 := tbl sboxN t21
  let u18 := tbl sboxN t30
  let u19 := tbl sboxN t3
  let u20 := tbl sboxN t20
  let u21 := tbl sboxN t25
  let u22 := tbl sboxN t2
  let u23 := tbl sboxN t7
  let u24 := tbl sboxN t24
  let u25 := tbl sboxN t29
  let u26 := tbl sboxN t6
  let u27 := tbl sboxN t11
  let u28 := tbl sboxN t28
  let u29 := tbl sboxN t1
  let u30 := tbl sboxN t10
  let u31 := tbl sboxN t15
  (u0 ^^^ ((k >>> 0) &&& 255)) + ((u1 ^^^ ((k >>> 8) &&& 255)) <<< 8) + ((u2 ^^^ ((k >>> 16) &&& 255)) <<< 16) + ((u3 ^^^ ((k >>> 24) &&& 255)) <<< 24) +
    ((u4 ^^^ ((k >>> 32) &&& 255)) <<< 32) + ((u5 ^^^ ((k >>> 40) &&& 255)) <<< 40) + ((u6 ^^^ ((k >>> 48) &&& 255)) <<< 48) + ((u7 ^^^ ((k >>> 56) &&& 255)) <<< 56) +
    ((u8 ^^^ ((k >>> 64) &&& 255)) <<< 64) + ((u9 ^^^ ((k >>> 72) &&& 255)) <<< 72) + ((u10 ^^^ ((k >>> 80) &&& 255)) <<< 80) + ((u11 ^^^ ((k >>> 88) &&& 255)) <<< 88) +
    ((u12 ^^^ ((k >>> 96) &&& 255)) <<< 96) + ((u13 ^^^ ((k >>> 104) &&& 255)) <<< 104) + ((u14 ^^^ ((k >>> 112) &&& 255)) <<< 112) + ((u15 ^^^ ((k >>> 120) &&& 255)) <<< 120) +
    ((u16 ^^^ ((k >>> 128) &&& 255)) <<< 128) + ((u17 ^^^ ((k >>> 136) &&& 255)) <<< 136) + ((u18 ^^^ ((k >>> 144) &&& 255)) <<< 144) + ((u19 ^^^ ((k >>> 152) &&& 255)) <<< 152) +
    ((u20 ^^^ ((k >>> 160) &&& 255)) <<< 160) + ((u21 ^^^ ((k >>> 168) &&& 255)) <<< 168) + ((u22 ^^^ ((k >>> 176) &&& 255)) <<< 176) + ((u23 ^^^ ((k >>> 184) &&& 255)) <<< 184) +
    ((u24 ^^^ ((k >>> 192) &&& 255)) <<< 192) + ((u25 ^^^ ((k >>> 200) &&& 255)) <<< 200) + ((u26 ^^^ ((k >>> 208) &&& 255)) <<< 208) + ((u27 ^^^ ((k >>> 216) &&& 255)) <<< 216) +
    ((u28 ^^^ ((k >>> 224) &&& 255)) <<< 224) + ((u29 ^^^ ((k >>> 232) &&& 255)) <<< 232) + ((u30 ^^^ ((k >>> 240) &&& 255)) <<< 240) + ((u31 ^^^ ((k >>> 248) &&& 255)) <<< 248)

/-- One full decryption round: InvShiftRows, InvSubBytes, AddRoundKey, then
InvMixColumns. -/
def rhxDecRound (s k : Nat) : Nat :=
  let t0 := (s >>> 0) &&& 255
  let t1 := (s >>> 8) &&& 255
  let t2 := (s >>> 16) &&& 255
  let t3 := (s >>> 24) &&& 255
  let t4 := (s >>> 32) &&& 255
  let t5 := (s >>> 40) &&& 255
  let t6 := (s >>> 48) &&& 255
  let t7 := (s >>> 56) &&& 255
  let t8 := (s >>> 64) &&& 255
  let t9 := (s >>> 72) &&& 255
  let t10 := (s >>> 80) &&& 255
  let t11 := (s >>> 88) &&& 255
  let t12 := (s >>> 96) &&& 255
  let t13 := (s >>> 104) &&& 255
  let t14 := (s >>> 112) &&& 255
  let t15 := (s >>> 120) &&& 255
  let t16 := (s >>> 128) &&& 255
  let t17 := (s >>> 136) &&& 255
  let t18 := (s >>> 144) &&& 255
  let t19 := (s >>> 152) &&& 255
  let t20 := (s >>> 160) &&& 255
  let t21 := (s >>> 168) &&& 255
  let t22 := (s >>> 176) &&& 255
  let t23 := (s >>> 184) &&& 255
  let t24 := (s >>> 192) &&& 255
  let t25 := (s >>> 200) &&& 255
  let t26 := (s >>> 208) &&& 255
  let t27 := (s >>> 216) &&& 255
  let t28 := (s >>> 224) &&& 255
  let t29 := (s >>> 232) &&& 255
  let t30 := (s >>> 240) &&& 255
  let t31 := (s >>> 248) &&& 255
  let u0 := tbl invSboxN t0
  let u1 := tbl invSboxN t29
  let u2 := tbl invSboxN t22
  let u3 := tbl invSboxN t19
  let u4 := tbl invSboxN t4
  let u5 := tbl invSboxN t1
  let u6 := tbl invSboxN t26
  let u7 := tbl invSboxN t23
  let u8 := tbl invSboxN t8
  let u9 := tbl invSboxN t5
  let u10 := tbl invSboxN t30
  let u11 := tbl invSboxN t27
  let u12 := tbl invSboxN t12
  let u13 := tbl invSboxN t9
  let u14 := tbl invSboxN t2
  let u15 := tbl invSboxN t31
  let u16 := tbl invSboxN t16
  let u17 := tbl invSboxN t13
  let u18 := tbl invSboxN t6
  let u19 := tbl invSboxN t3
  let u20 := tbl invSboxN t20
  let u21 := tbl invSboxN t17
  let u22 := tbl invSboxN t10
  let u23 := tbl invSboxN t7
  let u24 := tbl invSboxN t24
  let u25 := tbl invSboxN t21
  let u26 := tbl invSboxN t14
  let u27 := tbl invSboxN t11
  let u28 := tbl invSboxN t28
  let u29 := tbl invSboxN t25
  let u30 := tbl invSboxN t18
  let u31 := tbl invSboxN t15
  let v0 := u0 ^^^ ((k >>> 0) &&& 255)
  let v1 := u1 ^^^ ((k >>> 8) &&& 255)
  let v2 := u2 ^^^ ((k >>> 16) &&& 255)
  let v3 := u3 ^^^ ((k >>> 24) &&& 255)
  let v4 := u4 ^^^ ((k >>> 32) &&& 255)
  let v5 := u5 ^^^ ((k >>> 40) &&& 255)
  let v6 := u6 ^^^ ((k >>> 48) &&& 255)
  let v7 := u7 ^^^ ((k >>> 56) &&& 255)
  let v8 := u8 ^^^ ((k >>> 64) &&& 255)
  let v9 := u9 ^^^ ((k >>> 72) &&& 255)
  let v10 := u10 ^^^ ((k >>> 80) &&& 255)
  let v11 := u11 ^^^ ((k >>> 88) &&& 255)
  let v12 := u12 ^^^ ((k >>> 96) &&& 255)
  let v13 := u13 ^^^ ((k >>> 104) &&& 255)
  let v14 := u14 ^^^ ((k >>> 112) &&& 255)
  let v15 := u15 ^^^ ((k >>> 120) &&& 255)
  let v16 := u16 ^^^ ((k >>> 128) &&& 255)
  let v17 := u17 ^^^ ((k >>> 136) &&& 255)
  let v18 := u18 ^^^ ((k >>> 144) &&& 255)
  let v19 := u19 ^^^ ((k >>> 152) &&& 255)
  let v20 := u20 ^^^ ((k >>> 160) &&& 255)
  let v21 := u21 ^^^ ((k >>> 168) &&& 255)
  let v22 := u22 ^^^ ((k >>> 176) &&& 255)
  let v23 := u23 ^^^ ((k >>> 184) &&& 255)
  let v24 := u24 ^^^ ((k >>> 192) &&& 255)
  let v25 := u25 ^^^ ((k >>> 200) &&& 255)
  let v26 := u26 ^^^ ((k >>> 208) &&& 255)
  let v27 := u27 ^^^ ((k >>> 216) &&& 255)
  let v28 := u28 ^^^ ((k >>> 224) &&& 255)
  let v29 := u29 ^^^ ((k >>> 232) &&& 255)
  let v30 := u30 ^^^ ((k >>> 240) &&& 255)
  let v31 := u31 ^^^ ((k >>> 248) &&& 255)
  (tbl gmul14N v0 ^^^ tbl gmul11N v1 ^^^ tbl gmul13N v2 ^^^ tbl gmul9N v3) + ((tbl gmul9N v0 ^^^ tbl gmul14N v1 ^^^ tbl gmul11N v2 ^^^ tbl gmul13N v3) <<< 8) + ((tbl gmul13N v0 ^^^ tbl gmul9N v1 ^^^ tbl gmul14N v2 ^^^ tbl gmul11N v3) <<< 16) + ((tbl gmul11N v0 ^^^ tbl gmul13N v1 ^^^ tbl gmul9N v2 ^^^ tbl gmul14N v3) <<< 24) +
    ((tbl gmul14N v4 ^^^ tbl gmul11N v5 ^^^ tbl gmul13N v6 ^^^ tbl gmul9N v7) <<< 32) + ((tbl gmul9N v4 ^^^ tbl gmul14N v5 ^^^ tbl gmul11N v6 ^^^ tbl gmul13N v7) <<< 40) + ((tbl gmul13N v4 ^^^ tbl gmul9N v5 ^^^ tbl gmul14N v6 ^^^ tbl gmul11N v7) <<< 48) + ((tbl gmul11N v4 ^^^ tbl gmul13N v5 ^^^ tbl gmul9N v6 ^^^ tbl gmul14N v7) <<< 56) +
    ((tbl gmul14N v8 ^^^ tbl gmul11N v9 ^^^ tbl gmul13N v10 ^^^ tbl gmul9N v11) <<< 64) + ((tbl gmul9N v8 ^^^ tbl gmul14N v9 ^^^ tbl gmul11N v10 ^^^ tbl gmul13N v11) <<< 72) + ((tbl gmul13N v8 ^^^ tbl gmul9N v9 ^^^ tbl gmul14N v10 ^^^ tbl gmul11N v11) <<< 80) + ((tbl gmul11N v8 ^^^ tbl gmul13N v9 ^^^ tbl gmul9N v10 ^^^ tbl gmul14N v11) <<< 88) +
    ((tbl gmul14N v12 ^^^ tbl gmul11N v13 ^^^ tbl gmul13N v14 ^^^ tbl gmul9N v15) <<< 96) + ((tbl gmul9N v12 ^^^ tbl gmul14N v13 ^^^ tbl gmul11N v14 ^^^ tbl gmul13N v15) <<< 104) + ((tbl gmul13N v12 ^^^ tbl gmul9N v13 ^^^ tbl gmul14N v14 ^^^ tbl gmul11N v15) <<< 112) + ((tbl gmul11N v12 ^^^ tbl gmul13N v13 ^^^ tbl gmul9N v14 ^^^ tbl gmul14N v15) <<< 120) +
    ((tbl gmul14N v16 ^^^ tbl gmul11N v17 ^^^ tbl gmul13N v18 ^^^ tbl gmul9N v19) <<< 128) + ((tbl gmul9N v16 ^^^ tbl gmul14N v17 ^^^ tbl gmul11N v18 ^^^ tbl gmul13N v19) <<< 136) + ((tbl gmul13N v16 ^^^ tbl gmul9N v17 ^^^ tbl gmul14N v18 ^^^ tbl gmul11N v19) <<< 144) + ((tbl gmul11N v16 ^^^ tbl gmul13N v17 ^^^ tbl gmul9N v18 ^^^ tbl gmul14N v19) <<< 152) +
    ((tbl gmul14N v20 ^^^ tbl gmul11N v21 ^^^ tbl gmul13N v22 ^^^ tbl gmul9N v23) <<< 160) + ((tbl gmul9N v20 ^^^ tbl gmul14N v21 ^^^ tbl gmul11N v22 ^^^ tbl gmul13N v23) <<< 168) + ((tbl gmul13N v20 ^^^ tbl gmul9N v21 ^^^ tbl gmul14N v22 ^^^ tbl gmul11N v23) <<< 176) + ((tbl gmul11N v20 ^^^ tbl gmul13N v21 ^^^ tbl gmul9N v22 ^^^ tbl gmul14N v23) <<< 184) +
    ((tbl gmul14N v24 ^^^ tbl gmul11N v25 ^^^ tbl gmul13N v26 ^^^ tbl gmul9N v27) <<< 192) + ((tbl gmul9N v24 ^^^ tbl gmul14N v25 ^^^ tbl gmul11N v26 ^^^ tbl gmul13N v27) <<< 200) + ((tbl gmul13N v24 ^^^ tbl gmul9N v25 ^^^ tbl gmul14N v26 ^^^ tbl gmul11N v27) <<< 208) + ((tbl gmul11N v24 ^^^ tbl gmul13N v25 ^^^ tbl gmul9N v26 ^^^ tbl gmul14N v27) <<< 216) +
    ((tbl gmul14N v28 ^^^ tbl gmul11N v29 ^^^ tbl gmul13N v30 ^^^ tbl gmul9N v31) <<< 224) + ((tbl gmul9N v28 ^^^ tbl gmul14N v29 ^^^ tbl gmul11N v30 ^^^ tbl gmul13N v31) <<< 232) + ((tbl gmul13N v28 ^^^ tbl gmul9N v29 ^^^ tbl gmul14N v30 ^^^ tbl gmul11N v31) <<< 240) + ((tbl gmul11N v28 ^^^ tbl gmul13N v29 ^^^ tbl gmul9N v30 ^^^ tbl gmul14N v31) <<< 248)

/-- The final decryption round: InvShiftRows, InvSubBytes, AddRoundKey. -/
def rhxDecLast (s k : Nat) : Nat :=
  let t0 := (s >>> 0) &&& 255
  let t1 := (s >>> 8) &&& 255
  let t2 := (s >>> 16) &&& 255
  let t3 := (s >>> 24) &&& 255
  let t4 := (s >>> 32) &&& 255
  let t5 := (s >>> 40) &&& 255
  let t6 := (s >>> 48) &&& 255
  let t7 := (s >>> 56) &&& 255
  let t8 := (s >>> 64) &&& 255
  let t9 := (s >>> 72) &&& 255
  let t10 := (s >>> 80) &&& 255
  let t11 := (s >>> 88) &&& 255
  let t12 := (s >>> 96) &&& 255
  let t13 := (s >>> 104) &&& 255
  let t14 := (s >>> 112) &&& 255
  let t15 := (s >>> 120) &&& 255
  let t16 := (s >>> 128) &&& 255
  let t17 := (s >>> 136) &&& 255
  let t18 := (s >>> 144) &&& 255
  let t19 := (s >>> 152) &&& 255
  let t20 := (s >>> 160) &&& 255
  let t21 := (s >>> 168) &&& 255
  let t22 := (s >>> 176) &&& 255
  let t23 := (s >>> 184) &&& 255
  let t24 := (s >>> 192) &&& 255
  let t25 := (s >>> 200) &&& 255
  let t26 := (s >>> 208) &&& 255
  let t27 := (s >>> 216) &&& 255
  let t28 := (s >>> 224) &&& 255
  let t29 := (s >>> 232) &&& 255
  let t30 := (s >>> 240) &&& 255
  let t31 := (s >>> 248) &&& 255
  let u0 := tbl invSboxN t0
  let u1 := tbl invSboxN t29
  let u2 := tbl invSboxN t22
  let u3 := tbl invSboxN t19
  let u4 := tbl invSboxN t4
  let u5 := tbl invSboxN t1
  let u6 := tbl invSboxN t26
  let u7 := tbl invSboxN t23
  let u8 := tbl invSboxN t8
  let u9 := tbl invSboxN t5
  let u10 := tbl invSboxN t30
  let u11 := tbl invSboxN t27
  let u12 := tbl invSboxN t12
  let u13 := tbl invSboxN t9
  let u14 := tbl invSboxN t2
  let u15 := tbl invSboxN t31
  let u16 := tbl invSboxN t16
  let u17 := tbl invSboxN t13
  let u18 := tbl invSboxN t6
  let u19 := tbl invSboxN t3
  let u20 := tbl invSboxN t20
  let u21 := tbl invSboxN t17
  let u22 := tbl invSboxN t10
  let u23 := tbl invSboxN t7
  let u24 := tbl invSboxN t24
  let u25 := tbl invSboxN t21
  let u26 := tbl invSboxN t14
  let u27 := tbl invSboxN t11
  let u28 := tbl invSboxN t28
  let u29 := tbl invSboxN t25
  let u30 := tbl invSboxN t18
  let u31 := tbl invSboxN t15
  (u0 ^^^ ((k >>> 0) &&& 255)) + ((u1 ^^^ ((k >>> 8) &&& 255)) <<< 8) + ((u2 ^^^ ((k >>> 16) &&& 255)) <<< 16) + ((u3 ^^^ ((k >>> 24) &&& 255)) <<< 24) +
    ((u4 ^^^ ((k >>> 32) &&& 255)) <<< 32) + ((u5 ^^^ ((k >>> 40) &&& 255)) <<< 40) + ((u6 ^^^ ((k >>> 48) &&& 255)) <<< 48) + ((u7 ^^^ ((k >>> 56) &&& 255)) <<< 56) +
    ((u8 ^^^ ((k >>> 64) &&& 255)) <<< 64) + ((u9 ^^^ ((k >>> 72) &&& 255)) <<< 72) + ((u10 ^^^ ((k >>> 80) &&& 255)) <<< 80) + ((u11 ^^^ ((k >>> 88) &&& 255)) <<< 88) +
    ((u12 ^^^ ((k >>> 96) &&& 255)) <<< 96) + ((u13 ^^^ ((k >>> 104) &&& 255)) <<< 104) + ((u14 ^^^ ((k >>> 112) &&& 255)) <<< 112) + ((u15 ^^^ ((k >>> 120) &&& 255)) <<< 120) +
    ((u16 ^^^ ((k >>> 128) &&& 255)) <<< 128) + ((u17 ^^^ ((k >>> 136) &&& 255)) <<< 136) + ((u18 ^^^ ((k >>> 144) &&& 255)) <<< 144) + ((u19 ^^^ ((k >>> 152) &&& 255)) <<< 152) +
    ((u20 ^^^ ((k >>> 160) &&& 255)) <<< 160) + ((u21 ^^^ ((k >>> 168) &&& 255)) <<< 168) + ((u22 ^^^ ((k >>> 176) &&& 255)) <<< 176) + ((u23 ^^^ ((k >>> 184) &&& 255)) <<< 184) +
    ((u24 ^^^ ((k >>> 192) &&& 255)) <<< 192) + ((u25 ^^^ ((k >>> 200) &&& 255)) <<< 200) + ((u26 ^^^ ((k >>> 208) &&& 255)) <<< 208) + ((u27 ^^^ ((k >>> 216) &&& 255)) <<< 216) +
    ((u28 ^^^ ((k >>> 224) &&& 255)) <<< 224) + ((u29 ^^^ ((k >>> 232) &&& 255)) <<< 232) + ((u30 ^^^ ((k >>> 240) &&& 255)) <<< 240) + ((u31 ^^^ ((k >>> 248) &&& 255)) <<< 248)

/-- The FIPS-197 round-constant table (1-indexed), enough for the 14 core
applications of the Nk = 8 expansion to 120 words. -/
def rconTable : List Nat := [1, 2, 4, 8, 16, 32, 64, 128, 27, 54, 108, 216, 171, 77]

/-- SubWord on a 32-bit word (big-endian byte order within the word, as in
FIPS-197). -/
def subWord (w : Nat) : Nat :=
  (tbl sboxN (w >>> 24) <<< 24) ||| (tbl sboxN ((w >>> 16) &&& 255) <<< 16) |||
    (tbl sboxN ((w >>> 8) &&& 255) <<< 8) ||| tbl sboxN (w &&& 255)

/-- RotWord on a 32-bit word. -/
def rotWord (w : Nat) : Nat := ((w <<< 8) % 2 ^ 32) ||| (w >>> 24)

/-- The FIPS-197 key-expansion recurrence for Nk = 8: append `n` further
words to `ws`; every eighth word applies SubWord, RotWord and the round
constant, and the fourth word of each group of eight applies SubWord alone. -/
def expandWords : Nat → List Nat → List Nat
  | 0, ws => ws
  | n + 1, ws =>
    let i := ws.length
    let tl := ws.getD (i - 1) 0
    let t :=
      if i % 8 = 0 then subWord (rotWord tl) ^^^ (rconTable.getD (i / 8 - 1) 0 <<< 24)
      else if i % 8 = 4 then subWord tl
      else tl
    expandWords n (ws ++ [ws.getD (i - 8) 0 ^^^ t])

/-- Expand a 32-byte key to the 120 32-bit words of the 15 round keys
((14 + 1) * 8 words). -/
def RHX.ExpandKey32 (key : List Nat) : List Nat :=
  expandWords 112 ((List.range 8).map (fun i =>
    (key.getD (4 * i) 0 <<< 24) + (key.getD (4 * i + 1) 0 <<< 16) +
      (key.getD (4 * i + 2) 0 <<< 8) + key.getD (4 * i + 3) 0))

/-- Pack round key `rnd` from the expanded words into the 256-bit state
layout (byte 4 * c + r taken from byte 3 - r of word 8 * rnd + c). -/
def packedRoundKey (ws : List Nat) (rnd : Nat) : Nat :=
  (List.range 32).foldl (fun acc i =>
    acc + (((ws.getD (8 * rnd + i / 4) 0 >>> (8 * (3 - i % 4))) &&& 255) <<< (8 * i))) 0

/-- Pack a 32-byte block into the 256-bit state number. -/
def packB32 (l : List Nat) : Nat :=
  (List.range 32).foldl (fun acc i => acc + ((l.getD i 0 % 256) <<< (8 * i))) 0

/-- Unpack the 256-bit state number into a 32-byte block. -/
def unpackB32 (s : Nat) : List Nat := (List.range 32).map (fun i => (s >>> (8 * i)) &&& 255)

/-- RHX encryption of one 32-byte block under a 32-byte key: AddRoundKey,
13 full rounds, final round without MixColumns (14 rounds, the standard
count selected automatically for 32-byte keys). -/
def RHX.Encrypt32 (key pt : List Nat) : List Nat :=
  let ws := RHX.ExpandKey32 key
  let s0 := packB32 pt ^^^ packedRoundKey ws 0
  let s1 := (List.range 13).foldl (fun s r => rhxEncRound s (packedRoundKey ws (r + 1))) s0
  unpackB32 (rhxEncLast s1 (packedRoundKey ws 14))

/-- RHX decryption of one 32-byte block under a 32-byte key (the inverse
cipher: InvShiftRows, InvSubBytes, AddRoundKey, InvMixColumns per round). -/
def RHX.Decrypt32 (key ct : List Nat) : List Nat :=
  let ws := RHX.ExpandKey32 key
  let s0 := packB32 ct ^^^ packedRoundKey ws 14
  let s1 := (List.range 13).foldl (fun s j => rhxDecRound s (packedRoundKey ws (13 - j))) s0
  unpackB32 (rhxDecLast s1 (packedRoundKey ws 0))

/-! ## Helper lemmas -/

theorem cfbSerial_append (E : List Nat → List Nat) (r : List Nat) (s t : List (List Nat)) :
    CFB.DecryptSerial E r (s ++ t) =
      CFB.DecryptSerial E r s ++ CFB.DecryptSerial E (s.getLastD r) t := by
  induction s generalizing r with
  | nil => rfl
  | cons c cs ih =>
    simp only [List.cons_append, CFB.DecryptSerial, List.getLastD_cons]
    exact congrArg _ (ih c)

theorem cbcSerial_append (D : List Nat → List Nat) (r : List Nat) (s t : List (List Nat)) :
    CBC.DecryptSerial D r (s ++ t) =
      CBC.DecryptSerial D r s ++ CBC.DecryptSerial D (s.getLastD r) t := by
  induction s generalizing r with
  | nil => rfl
  | cons c cs ih =>
    simp only [List.cons_append, CBC.DecryptSerial, List.getLastD_cons]
    exact congrArg _ (ih c)

theorem cfbParallel_eq_serial (E : List Nat → List Nat) (iv : List Nat)
    (segs : List (List (List Nat))) :
    CFB.DecryptParallel E iv segs = CFB.DecryptSerial E iv segs.flatten := by
  induction segs generalizing iv with
  | nil => rfl
  | cons s rest ih =>
    simp only [CFB.DecryptParallel, List.flatten_cons, cfbSerial_append, ih]

theorem cbcParallel_eq_serial (D : List Nat → List Nat) (iv : List Nat)
    (segs : List (List (List Nat))) :
    CBC.ParallelDecrypt D iv segs = CBC.DecryptSerial D iv segs.flatten := by
  induction segs generalizing iv with
  | nil => rfl
  | cons s rest ih =>
    simp only [CBC.ParallelDecrypt, List.flatten_cons, cbcSerial_append, ih]

/-! ## Claim theorems -/

/-- C1: for every block-cipher function, every IV, and every split of the
ciphertext block sequence into contiguous segments (in particular the
parallel_block_size-aligned splits used by the parallel path), CFB and CBC
parallel decryption, which gives each segment the last ciphertext block of
the preceding segment (the IV for segment 0) as its initial register, is
byte-for-byte identical to serial decryption of the concatenated input. -/
theorem C1_parallel_decrypt_eq_serial (E D : List Nat → List Nat) (iv : List Nat)
    (segs : List (List (List Nat))) :
    CFB.DecryptParallel E iv segs = CFB.DecryptSerial E iv segs.flatten ∧
    CBC.ParallelDecrypt D iv segs = CBC.DecryptSerial D iv segs.flatten :=
  ⟨cfbParallel_eq_serial E iv segs, cbcParallel_eq_serial D iv segs⟩

/-- C5 counterexample: the claim states that `ParallelMaxDegree` accepts
Degree = 0 (automatic selection) and Degree = 1 (parallelism disabled), but
`Keccak256::ParallelMaxDegree` throws on both: 0 by its explicit zero check
and 1 by its evenness check. -/
theorem C5_counterexample :
    Keccak256.ParallelMaxDegreeThrows 0 = true ∧
    Keccak256.ParallelMaxDegreeThrows 1 = true := by decide

/-- C5 (amended): `Keccak256::ParallelMaxDegree(Degree)` throws exactly when
Degree is 0, odd, or greater than 254; equivalently it passes validation
exactly for the even degrees in [2, 254]. -/
theorem C5_parallel_max_degree_validation (d : Nat) :
    Keccak256.ParallelMaxDegreeThrows d = false ↔ 2 ≤ d ∧ d ≤ 254 ∧ d % 2 = 0 := by
  simp only [Keccak256.ParallelMaxDegreeThrows, Bool.or_eq_false_iff,
    decide_eq_false_iff_not, ne_eq, not_not]
  omega

theorem rhxTable_eq (H S : Nat) :
    RHX.LegalKeySizesTable H S =
      [16, 24, 32, 64, H + 1 * S, H + 2 * S, H + 3 * S, H + 4 * S, H + 5 * S,
       H + 6 * S, H + 7 * S, H + 8 * S, H + 9 * S, H + 10 * S] := by
  have hr : List.range 10 = [0, 1, 2, 3, 4, 5, 6, 7, 8, 9] := rfl
  have h1 : ∀ n : Nat, S * (n + 1) + H = H + (n + 1) * S := by intro n; ring
  rw [RHX.LegalKeySizesTable, hr]
  simp only [List.map_cons, List.map_nil, List.cons_append, List.nil_append]
  rw [h1 0, h1 1, h1 2, h1 3, h1 4, h1 5, h1 6, h1 7, h1 8, h1 9]

/-- C7: the `_legalKeySizes` table built by the RHX constructor is exactly
the 14-element ordered list of the four standard sizes 16, 24, 32, 64
followed by H + n * S for n = 1..10, where H is the KDF digest's output
(IKM) size and S its block (salt) size. -/
theorem C7_rhx_legal_key_sizes (H S : Nat) :
    RHX.LegalKeySizesTable H S =
      [16, 24, 32, 64, H + 1 * S, H + 2 * S, H + 3 * S, H + 4 * S, H + 5 * S,
       H + 6 * S, H + 7 * S, H + 8 * S, H + 9 * S, H + 10 * S] ∧
    (RHX.LegalKeySizesTable H S).length = 14 :=
  ⟨rhxTable_eq H S, by rw [rhxTable_eq]; rfl⟩

theorem rhx_key_valid_iff (H S keyLen : Nat) :
    RHX.KeyLengthValid H S keyLen = true ↔
      (keyLen = 16 ∨ keyLen = 24 ∨ keyLen = 32 ∨ keyLen = 64 ∨
        ∃ n, 1 ≤ n ∧ n ≤ 10 ∧ keyLen = H + n * S) := by
  rw [show RHX.KeyLengthValid H S keyLen = (RHX.LegalKeySizesTable H S).elem keyLen from rfl,
    List.elem_iff, rhxTable_eq]
  simp only [List.mem_cons, List.not_mem_nil, or_false]
  constructor
  · rintro (h | h | h | h | h | h | h | h | h | h | h | h | h | h)
    · exact Or.inl h
    · exact Or.inr (Or.inl h)
    · exact Or.inr (Or.inr (Or.inl h))
    · exact Or.inr (Or.inr (Or.inr (Or.inl h)))
    · exact Or.inr (Or.inr (Or.inr (Or.inr ⟨1, by omega, by omega, h⟩)))
    · exact Or.inr (Or.inr (Or.inr (Or.inr ⟨2, by omega, by omega, h⟩)))
    · exact Or.inr (Or.inr (Or.inr (Or.inr ⟨3, by omega, by omega, h⟩)))
    · exact Or.inr (Or.inr (Or.inr (Or.inr ⟨4, by omega, by omega, h⟩)))
    · exact Or.inr (Or.inr (Or.inr (Or.inr ⟨5, by omega, by omega, h⟩)))
    · exact Or.inr (Or.inr (Or.inr (Or.inr ⟨6, by omega, by omega, h⟩)))
    · exact Or.inr (Or.inr (Or.inr (Or.inr ⟨7, by omega, by omega, h⟩)))
    · exact Or.inr (Or.inr (Or.inr (Or.inr ⟨8, by omega, by omega, h⟩)))
    · exact Or.inr (Or.inr (Or.inr (Or.inr ⟨9, by omega, by omega, h⟩)))
    · exact Or.inr (Or.inr (Or.inr (Or.inr ⟨10, by omega, by omega, h⟩)))
  · rintro (h | h | h | h | ⟨n, h1, h10, rfl⟩)
    · exact Or.inl h
    · exact Or.inr (Or.inl h)
    · exact Or.inr (Or.inr (Or.inl h))
    · exact Or.inr (Or.inr (Or.inr (Or.inl h)))
    · interval_cases n <;> omega

theorem rhx_rounds_throws_iff (rounds : Nat) :
    RHX.CtorRoundsThrows rounds = true ↔
      ¬(10 ≤ rounds ∧ rounds ≤ 38 ∧ rounds % 2 = 0) := by
  simp only [RHX.CtorRoundsThrows, Bool.or_eq_true, decide_eq_true_eq]
  omega

/-- C6: setting up RHX fails with InvalidRounds exactly when the rounds
count is outside [10, 38] or odd (every even value in [10, 38] passes the
constructor), and fails with InvalidKey exactly when the rounds are legal
but the key length is outside the set 16, 24, 32, 64 and H + n * S for
n = 1..10; otherwise setup succeeds. -/
theorem C6_rhx_setup_validation (H S rounds keyLen : Nat) :
    (RHX.Setup H S rounds keyLen = .error .invalidRounds ↔
      ¬(10 ≤ rounds ∧ rounds ≤ 38 ∧ rounds % 2 = 0)) ∧
    (RHX.Setup H S rounds keyLen = .error .invalidKey ↔
      (10 ≤ rounds ∧ rounds ≤ 38 ∧ rounds % 2 = 0) ∧
        ¬(keyLen = 16 ∨ keyLen = 24 ∨ keyLen = 32 ∨ keyLen = 64 ∨
          ∃ n, 1 ≤ n ∧ n ≤ 10 ∧ keyLen = H + n * S)) ∧
    (RHX.Setup H S rounds keyLen = .ok () ↔
      (10 ≤ rounds ∧ rounds ≤ 38 ∧ rounds % 2 = 0) ∧
        (keyLen = 16 ∨ keyLen = 24 ∨ keyLen = 32 ∨ keyLen = 64 ∨
          ∃ n, 1 ≤ n ∧ n ≤ 10 ∧ keyLen = H + n * S)) := by
  unfold RHX.Setup
  by_cases hr : RHX.CtorRoundsThrows rounds = true
  · have hok := (rhx_rounds_throws_iff rounds).mp hr
    simp [hr, hok]
  · have hok : 10 ≤ rounds ∧ rounds ≤ 38 ∧ rounds % 2 = 0 := by
      by_contra hc
      exact hr ((rhx_rounds_throws_iff rounds).mpr hc)
    by_cases hk : RHX.KeyLengthValid H S keyLen = true
    · have hkm := (rhx_key_valid_iff H S keyLen).mp hk
      simp [hr, hk, hok, hkm]
    · have hkm : ¬(keyLen = 16 ∨ keyLen = 24 ∨ keyLen = 32 ∨ keyLen = 64 ∨
          ∃ n, 1 ≤ n ∧ n ≤ 10 ∧ keyLen = H + n * S) := by
        intro hc
        exact hk ((rhx_key_valid_iff H S keyLen).mpr hc)
      simp [hr, hk, hok, hkm]

theorem zeroFillF_spec : ∀ (n : Nat) (input : List Nat) (off : Nat),
    off + n = input.length →
    ZeroPad.FillF n input off = (input.take off ++ List.replicate n 0, 0) := by
  intro n
  induction n with
  | zero =>
    intro input off h
    have hoff : off = input.length := by omega
    simp [ZeroPad.FillF, hoff, List.take_length]
  | succ n ih =>
    intro input off h
    have hlt : off < input.length := by omega
    rw [ZeroPad.FillF, if_pos hlt, ih (input.set off 0) (off + 1) (by simp; omega)]
    have htk : (input.set off 0).take (off + 1) = input.take off ++ [0] := by
      rw [List.set_eq_take_cons_drop _ hlt,
        show off + 1 = (input.take off).length + 1 from by simp [List.length_take]; omega,
        List.take_append]
      simp
    rw [htk]
    simp [List.replicate_succ]

/-- C10: for every byte vector and every offset at most the vector length,
`ZeroPad::AddPadding` zero-fills from the offset to the end, leaves the bytes
before the offset unchanged, and always returns 0 (the return value is
computed after the offset has advanced to the end); for an offset beyond the
length it throws instead. -/
theorem C10_zeropad_add_padding (input : List Nat) (off : Nat) :
    (off ≤ input.length →
      ZeroPad.AddPadding input off =
        .ok (input.take off ++ List.replicate (input.length - off) 0, 0)) ∧
    (input.length < off →
      ZeroPad.AddPadding input off =
        .error "The padding offset value is longer than the array length!") := by
  constructor
  · intro h
    rw [ZeroPad.AddPadding, if_neg (by omega)]
    rw [zeroFillF_spec (input.length - off) input off (by omega)]
  · intro h
    rw [ZeroPad.AddPadding, if_pos h]

/-- C10 witness: concrete instances of both branches. -/
theorem C10_witness :
    ZeroPad.AddPadding [5, 6, 7] 1 = .ok ([5, 0, 0], 0) ∧
    ZeroPad.AddPadding [5, 6, 7] 4 =
      .error "The padding offset value is longer than the array length!" :=
  ⟨(C10_zeropad_add_padding [5, 6, 7] 1).1 (by decide),
   (C10_zeropad_add_padding [5, 6, 7] 4).2 (by decide)⟩

/-! ## Absorb-loop lemmas and the update concatenation law -/

theorem absorbBlocksF_of_lt (f : Nat) (st : KState) (m : List Nat) (h : m.length < 136) :
    absorbBlocksF f st m = (st, m) := by
  cases f with
  | zero => rfl
  | succ f =>
    show (if m.length < 136 then (st, m)
      else absorbBlocksF f (Keccak.Permute st (m.take 136)) (m.drop 136)) = (st, m)
    rw [if_pos h]

theorem absorbBlocksF_irrel : ∀ (f1 f2 : Nat) (st : KState) (m : List Nat),
    m.length ≤ f1 → m.length ≤ f2 → absorbBlocksF f1 st m = absorbBlocksF f2 st m := by
  intro f1
  induction f1 with
  | zero =>
    intro f2 st m h1 h2
    rw [absorbBlocksF_of_lt 0 st m (by omega), absorbBlocksF_of_lt f2 st m (by omega)]
  | succ f ih =>
    intro f2 st m h1 h2
    by_cases hm : m.length < 136
    · rw [absorbBlocksF_of_lt _ _ _ hm, absorbBlocksF_of_lt _ _ _ hm]
    · obtain ⟨g, rfl⟩ : ∃ g, f2 = g + 1 := ⟨f2 - 1, by omega⟩
      have e1 : absorbBlocksF (f + 1) st m
          = absorbBlocksF f (Keccak.Permute st (m.take 136)) (m.drop 136) := by
        show (if m.length < 136 then _ else _) = _
        rw [if_neg hm]
      have e2 : absorbBlocksF (g + 1) st m
          = absorbBlocksF g (Keccak.Permute st (m.take 136)) (m.drop 136) := by
        show (if m.length < 136 then _ else _) = _
        rw [if_neg hm]
      rw [e1, e2]
      exact ih g _ _ (by simp; omega) (by simp; omega)

theorem absorbBlocks_of_lt (st : KState) (m : List Nat) (h : m.length < 136) :
    absorbBlocks st m = (st, m) :=
  absorbBlocksF_of_lt _ _ _ h

theorem absorbBlocks_step (st : KState) (m : List Nat) (h : 136 ≤ m.length) :
    absorbBlocks st m =
      absorbBlocks (Keccak.Permute st (m.take 136)) (m.drop 136) := by
  obtain ⟨k, hk⟩ : ∃ k, m.length = k + 1 := ⟨m.length - 1, by omega⟩
  unfold absorbBlocks
  rw [hk]
  show (if m.length < 136 then _ else _) = _
  rw [if_neg (by omega)]
  exact absorbBlocksF_irrel k _ _ _ (by simp; omega) (by simp)

theorem absorbBlocks_rem_lt_aux : ∀ (n : Nat) (st : KState) (m : List Nat),
    m.length ≤ n → (absorbBlocks st m).2.length < 136 := by
  intro n
  induction n with
  | zero =>
    intro st m h
    rw [absorbBlocks_of_lt st m (by omega)]
    exact show m.length < 136 by omega
  | succ n ih =>
    intro st m h
    by_cases hm : m.length < 136
    · rw [absorbBlocks_of_lt st m hm]
      exact hm
    · rw [absorbBlocks_step st m (by omega)]
      exact ih _ _ (by simp; omega)

theorem absorbBlocks_rem_lt (st : KState) (m : List Nat) :
    (absorbBlocks st m).2.length < 136 :=
  absorbBlocks_rem_lt_aux m.length st m le_rfl

theorem absorbBlocks_append : ∀ (n : Nat) (x y : List Nat) (st : KState), x.length ≤ n →
    absorbBlocks st (x ++ y) =
      absorbBlocks (absorbBlocks st x).1 ((absorbBlocks st x).2 ++ y) := by
  intro n
  induction n with
  | zero =>
    intro x y st h
    rw [absorbBlocks_of_lt st x (by omega)]
  | succ n ih =>
    intro x y st h
    by_cases hx : x.length < 136
    · rw [absorbBlocks_of_lt st x hx]
    · have hl : 136 ≤ x.length := by omega
      rw [absorbBlocks_step st (x ++ y) (by simp; omega), absorbBlocks_step st x hl,
        List.take_append_of_le_length hl, List.drop_append_of_le_length hl]
      exact ih (x.drop 136) y _ (by simp; omega)

theorem update_eq_absorb (st : KState × List Nat) (input : List Nat)
    (h : st.2.length < 136) :
    Keccak256.Update st input = absorbBlocks st.1 (st.2 ++ input) := by
  obtain ⟨H, buf⟩ := st
  dsimp only at h ⊢
  rw [Keccak256.Update]
  dsimp only
  by_cases h0 : input.length = 0
  · rw [if_pos h0]
    obtain rfl : input = [] := List.length_eq_zero.mp h0
    rw [List.append_nil, absorbBlocks_of_lt _ _ h]
  · rw [if_neg h0]
    by_cases h1 : buf.length ≠ 0 ∧ 136 ≤ buf.length + input.length
    · rw [if_pos h1]
      have hstep : absorbBlocks H (buf ++ input) =
          absorbBlocks (Keccak.Permute H ((buf ++ input).take 136)) ((buf ++ input).drop 136) :=
        absorbBlocks_step _ _ (by simp; omega)
      have hlen : buf.length + (136 - buf.length) = 136 := by omega
      have ht : (buf ++ input).take 136 = buf ++ input.take (136 - buf.length) := by
        have := @List.take_append Nat buf input (136 - buf.length)
        rwa [hlen] at this
      have hd : (buf ++ input).drop 136 = input.drop (136 - buf.length) := by
        have := @List.drop_append Nat buf input (136 - buf.length)
        rwa [hlen] at this
      rw [hstep, ht, hd]
    · rw [if_neg h1]
      by_cases hb : buf.length = 0
      · obtain rfl : buf = [] := List.length_eq_zero.mp hb
        simp only [List.nil_append]
      · have hin : input.length < 136 := by
          rcases not_and_or.mp h1 with hc | hc
          · exact absurd hb (by simpa using hc)
          · omega
        rw [absorbBlocks_of_lt H input hin, absorbBlocks_of_lt H (buf ++ input) (by simp; omega)]

/-- C3: for the sequential Keccak-256 digest and every pair of byte strings
A and B, updating with A then B and finalizing yields the same 32-byte digest
as updating with A ++ B and finalizing: the digest depends only on the
concatenation of the updated bytes. -/
theorem C3_update_concat (A B : List Nat) :
    Keccak256.FinalizeSeq (Keccak256.Update (Keccak256.Update (freshState, []) A) B) =
      Keccak256.FinalizeSeq (Keccak256.Update (freshState, []) (A ++ B)) := by
  have e1 : Keccak256.Update (freshState, []) A = absorbBlocks freshState A := by
    rw [update_eq_absorb _ _ (by simp)]
    simp only [List.nil_append]
  have hlt : (Keccak256.Update (freshState, []) A).2.length < 136 := by
    rw [e1]
    exact absorbBlocks_rem_lt freshState A
  have e3 : Keccak256.Update (freshState, []) (A ++ B) = absorbBlocks freshState (A ++ B) := by
    rw [update_eq_absorb _ _ (by simp)]
    simp only [List.nil_append]
  rw [update_eq_absorb _ _ hlt, e1, e3,
    absorbBlocks_append A.length A B freshState le_rfl]

/-! ## Finalization: the padded-block normal form -/

/-- The 136-byte padded block described by the spec for a residual buffer of
fewer than 136 bytes: the 0x01 domain byte at the buffer position and the
0x80 bit in the byte at position 135 (for a 135-byte residue the two land in
the single byte 0x81). -/
def specPadBlock (m : List Nat) : List Nat :=
  if m.length = 135 then m ++ [129]
  else m ++ 1 :: (List.replicate (134 - m.length) 0 ++ [128])

theorem hashFinal_snd (buf : List Nat) (off len : Nat) (st : KState) :
    (Keccak256.HashFinal buf off len st).2 =
      invertLanes5 (Keccak.Permute st
        ((((buf.set (off + len) 1).set (off + 135)
            ((buf.set (off + len) 1).getD (off + 135) 0 ||| 128)).drop off).take 136)) := rfl

theorem set_append_right (l l2 : List Nat) (n : Nat) (v : Nat) :
    (l ++ l2).set (l.length + n) v = l ++ l2.set n v := by
  induction l with
  | nil => simp
  | cons a tail ih =>
    simp only [List.cons_append, List.length_cons]
    rw [show tail.length + 1 + n = tail.length + n + 1 from by omega]
    exact congrArg _ ih

theorem getD_replicate_lt : ∀ (n i d : Nat), i < n → (List.replicate n 0).getD i d = 0 := by
  intro n
  induction n with
  | zero => intro i d h; omega
  | succ n ih =>
    intro i d h
    cases i with
    | zero => rfl
    | succ i => exact ih i d (by omega)

theorem set_replicate_eq (n j v : Nat) (h : j < n) :
    (List.replicate n 0).set j v =
      List.replicate j 0 ++ v :: List.replicate (n - j - 1) 0 := by
  rw [List.set_eq_take_cons_drop v (by simpa using h), List.take_replicate,
    List.drop_replicate]
  have e1 : j ⊓ n = j := by omega
  have e2 : n - (j + 1) = n - j - 1 := by omega
  rw [e1, e2]

theorem leULL256_length (s : KState) : (leULL256 s).length = 32 := by
  simp [leULL256, u64Bytes]

theorem chain_length (sts : List KState) :
    (sts.map leULL256).flatten.length = 32 * sts.length := by
  induction sts with
  | nil => rfl
  | cons st rest ih =>
    simp only [List.map_cons, List.flatten_cons, List.length_append, ih,
      leULL256_length, List.length_cons]
    omega

/-- `HashFinal` applied at offset `pre.length` to a buffer of the shape
`pre ++ r ++ zeros` (with `r` shorter than a block and enough zeros to cover
the block) produces the state obtained by permuting over the spec's padded
block of `r` and inverting the five lanes. -/
theorem hashFinal_window (st : KState) (pre r : List Nat) (k : Nat)
    (hr : r.length < 136) (hk : 136 ≤ r.length + k) :
    (Keccak256.HashFinal (pre ++ r ++ List.replicate k 0) pre.length r.length st).2 =
      invertLanes5 (Keccak.Permute st (specPadBlock r)) := by
  obtain ⟨k1, rfl⟩ : ∃ k1, k = k1 + 1 := ⟨k - 1, by omega⟩
  rw [hashFinal_snd]
  have hb1 : (pre ++ r ++ List.replicate (k1 + 1) 0).set (pre.length + r.length) 1
      = pre ++ (r ++ 1 :: List.replicate k1 0) := by
    rw [show pre.length + r.length = (pre ++ r).length + 0 from by simp,
      set_append_right, List.replicate_succ, List.set_cons_zero, List.append_assoc]
  rw [hb1]
  by_cases h135 : r.length = 135
  · have hget : (pre ++ (r ++ 1 :: List.replicate k1 0)).getD (pre.length + 135) 0 = 1 := by
      rw [List.getD_append_right _ _ _ _ (by omega),
        show pre.length + 135 - pre.length = 135 from by omega,
        List.getD_append_right _ _ _ _ (by omega),
        show 135 - r.length = 0 from by omega]
      rfl
    rw [hget, show (1 ||| 128 : Nat) = 129 from by decide]
    have hset : (pre ++ (r ++ 1 :: List.replicate k1 0)).set (pre.length + 135) 129
        = pre ++ (r ++ 129 :: List.replicate k1 0) := by
      rw [set_append_right]
      congr 1
      rw [show (135 : Nat) = r.length + 0 from by omega, set_append_right, List.set_cons_zero]
    rw [hset, List.drop_left]
    have hwin : (r ++ 129 :: List.replicate k1 0).take 136 = specPadBlock r := by
      rw [specPadBlock, if_pos h135, show (136 : Nat) = r.length + 1 from by omega,
        List.take_append, List.take_succ_cons, List.take_zero]
    rw [hwin]
  · have hrep : 134 - r.length < k1 := by omega
    have hget : (pre ++ (r ++ 1 :: List.replicate k1 0)).getD (pre.length + 135) 0 = 0 := by
      rw [List.getD_append_right _ _ _ _ (by omega),
        show pre.length + 135 - pre.length = 135 from by omega,
        List.getD_append_right _ _ _ _ (by omega),
        show 135 - r.length = (134 - r.length) + 1 from by omega]
      exact getD_replicate_lt k1 (134 - r.length) 0 hrep
    rw [hget, show (0 ||| 128 : Nat) = 128 from by decide]
    have hset : (pre ++ (r ++ 1 :: List.replicate k1 0)).set (pre.length + 135) 128
        = pre ++ (r ++ 1 :: (List.replicate (134 - r.length) 0 ++
            128 :: List.replicate (k1 - (134 - r.length) - 1) 0)) := by
      rw [set_append_right]
      congr 1
      rw [show (135 : Nat) = r.length + (135 - r.length) from by omega, set_append_right,
        show 135 - r.length = (134 - r.length) + 1 from by omega, List.set_cons_succ,
        set_replicate_eq k1 (134 - r.length) 128 hrep]
    rw [hset, List.drop_left]
    have hwin : (r ++ 1 :: (List.replicate (134 - r.length) 0 ++
          128 :: List.replicate (k1 - (134 - r.length) - 1) 0)).take 136 = specPadBlock r := by
      rw [specPadBlock, if_neg h135,
        show (136 : Nat) = r.length + (134 - r.length + 2) from by omega,
        List.take_append]
      congr 1
      rw [show 134 - r.length + 2 = (134 - r.length + 1) + 1 from by omega,
        List.take_succ_cons]
      congr 1
      rw [show 134 - r.length + 1 = (List.replicate (134 - r.length) (0 : Nat)).length + 1
          from by simp, List.take_append, List.take_succ_cons, List.take_zero]
    rw [hwin]

/-- The sequential finalization in padded-block normal form. -/
theorem finalizeSeq_padded (p : KState × List Nat) (h : p.2.length < 136) :
    Keccak256.FinalizeSeq p =
      leULL256 (invertLanes5 (Keccak.Permute p.1 (specPadBlock p.2))) := by
  obtain ⟨H, buf⟩ := p
  dsimp only at h ⊢
  rw [Keccak256.FinalizeSeq]
  dsimp only
  have := hashFinal_window H [] buf (136 - buf.length) h (by omega)
  rw [List.nil_append] at this
  rw [show ([] : List Nat).length = 0 from rfl] at this
  rw [this]

/-- C4: in sequential mode, Keccak-256 finalization equals exactly the
spec's step sequence: append the domain byte 0x01 at the buffer position,
set bit 0x80 in the byte at position 135, apply Keccak-f once to absorb the
padded block, bitwise-NOT lanes 1, 2, 8, 12, 17, and extract the 32-byte
digest in little-endian order from the first four lanes. -/
theorem C4_finalize_steps (H : KState) (buf : List Nat) (h : buf.length < 136) :
    Keccak256.FinalizeSeq (H, buf) =
      leULL256 (invertLanes5 (Keccak.Permute H (specPadBlock buf))) :=
  finalizeSeq_padded (H, buf) h

/-- C4 witness: the finalization-step normal form at the one-byte buffer
0xFF on a fresh state. -/
theorem C4_witness :
    (([255] : List Nat)).length < 136 ∧
    Keccak256.FinalizeSeq (freshState, [255]) =
      leULL256 (invertLanes5 (Keccak.Permute freshState (specPadBlock [255]))) :=
  ⟨by decide, C4_finalize_steps freshState [255] (by decide)⟩

/-! ## The parallel finalization with no residual bytes -/

theorem leafLoop_zero (buf : List Nat) (sts : List KState) :
    Keccak256.LeafLoop buf sts 0 = (buf, sts) := rfl

theorem writeChain_eq : ∀ (sts : List KState) (pre z : List Nat),
    32 * sts.length ≤ z.length →
    Keccak256.WriteChain sts (pre ++ z) pre.length =
      pre ++ (sts.map leULL256).flatten ++ z.drop (32 * sts.length) := by
  intro sts
  induction sts with
  | nil =>
    intro pre z h
    show pre ++ z = pre ++ [] ++ z.drop (32 * 0)
    simp
  | cons st rest ih =>
    intro pre z h
    show Keccak256.WriteChain rest (setRange (pre ++ z) pre.length (leULL256 st))
        (pre.length + 32) =
      pre ++ ((st :: rest).map leULL256).flatten ++ z.drop (32 * (st :: rest).length)
    have hsr : setRange (pre ++ z) pre.length (leULL256 st)
        = (pre ++ leULL256 st) ++ z.drop 32 := by
      rw [setRange, List.take_left, leULL256_length, List.drop_append, List.append_assoc]
    have hoff : pre.length + 32 = (pre ++ leULL256 st).length := by
      simp [leULL256_length]
    rw [hsr, hoff, ih (pre ++ leULL256 st) (z.drop 32) (by simp at h ⊢; omega),
      List.drop_drop]
    simp only [List.map_cons, List.flatten_cons, List.append_assoc, List.length_cons]
    rw [show 32 + 32 * rest.length = 32 * (rest.length + 1) from by ring]

theorem absorbBlocks_eq_fold : ∀ (n : Nat) (c : List Nat) (st : KState), c.length ≤ n →
    absorbBlocks st c =
      ((List.range (c.length / 136)).foldl
        (fun s i => Keccak.Permute s ((c.drop (136 * i)).take 136)) st,
       c.drop (136 * (c.length / 136))) := by
  intro n
  induction n with
  | zero =>
    intro c st h
    have hd : c.length / 136 = 0 := by omega
    rw [absorbBlocks_of_lt _ _ (by omega), hd]
    simp
  | succ n ih =>
    intro c st h
    by_cases hc : c.length < 136
    · have hd : c.length / 136 = 0 := by omega
      rw [absorbBlocks_of_lt _ _ hc, hd]
      simp
    · rw [absorbBlocks_step _ _ (by omega),
        ih (c.drop 136) (Keccak.Permute st (c.take 136)) (by simp; omega)]
      have hdd : ∀ i : Nat, (c.drop 136).drop (136 * i) = c.drop (136 * (i + 1)) := by
        intro i
        rw [List.drop_drop]
        congr 1
        ring
      have hlen : (c.drop 136).length = c.length - 136 := by simp
      have hq : c.length / 136 = (c.length - 136) / 136 + 1 := by omega
      rw [hlen, hq, List.range_succ_eq_map, List.foldl_cons, Prod.mk.injEq]
      refine ⟨?_, ?_⟩
      · rw [List.foldl_map]
        rw [show 136 * 0 = 0 from rfl, List.drop_zero]
        refine List.foldl_ext _ _ _ (fun s i hi => ?_)
        rw [hdd i]
      · rw [hdd ((c.length - 136) / 136)]

theorem hashFinal_window_off (st : KState) (pre r : List Nat) (k off len : Nat)
    (hoff : off = pre.length) (hlen2 : len = r.length)
    (hr : r.length < 136) (hk : 136 ≤ r.length + k) :
    (Keccak256.HashFinal (pre ++ r ++ List.replicate k 0) off len st).2 =
      invertLanes5 (Keccak.Permute st (specPadBlock r)) := by
  subst hoff
  subst hlen2
  exact hashFinal_window st pre r k hr hk

/-- C2 (amended): in fan-out mode, `Keccak256::Finalize` finalizes only the
leaves covered by residual buffered bytes; when there are no residual bytes
(total input a multiple of the buffer size, `m_msgLength = 0`), no leaf is
finalized at all, and the root digests the concatenation of the leaves' raw
(un-padded, un-permuted, un-inverted) first four lanes: the output equals the
sequential digest machinery applied to those raw chaining values. -/
theorem C2_parallel_finalize_raw_chain (sts : List KState) (buf : List Nat)
    (h1 : 1 ≤ sts.length) (h2 : buf.length = 136 * sts.length) :
    Keccak256.FinalizePar sts buf 0 =
      Keccak256.FinalizeSeq (Keccak256.Update (freshState, []) (sts.map leULL256).flatten) := by
  have hclen : (sts.map leULL256).flatten.length = 32 * sts.length := chain_length sts
  have hupd : Keccak256.Update (freshState, []) (sts.map leULL256).flatten
      = absorbBlocks freshState (sts.map leULL256).flatten := by
    rw [update_eq_absorb _ _ (by simp)]
    simp only [List.nil_append]
  rw [hupd, finalizeSeq_padded _ (absorbBlocks_rem_lt _ _),
    absorbBlocks_eq_fold (sts.map leULL256).flatten.length _ _ le_rfl]
  dsimp only
  rw [hclen]
  have hwc : Keccak256.WriteChain sts (List.replicate (136 * sts.length) 0) 0
      = (sts.map leULL256).flatten ++ List.replicate (104 * sts.length) 0 := by
    have h0 := writeChain_eq sts [] (List.replicate (136 * sts.length) 0) (by simp; omega)
    simp only [List.nil_append, List.length_nil] at h0
    rw [h0, List.drop_replicate,
      show 136 * sts.length - 32 * sts.length = 104 * sts.length from by omega]
  simp only [Keccak256.FinalizePar]
  rw [List.take_zero, List.nil_append, Nat.sub_zero, h2, leafLoop_zero]
  dsimp only
  rw [hwc]
  by_cases hM : 136 < 32 * sts.length
  · rw [if_pos hM]
    have hroot : (List.range (32 * sts.length / 136)).foldl
        (fun st i => Keccak.Permute st
          ((((sts.map leULL256).flatten ++ List.replicate (104 * sts.length) 0).drop
            (136 * i)).take 136)) freshState
        = (List.range (32 * sts.length / 136)).foldl
            (fun s i => Keccak.Permute s (((sts.map leULL256).flatten.drop (136 * i)).take 136))
            freshState := by
      refine List.foldl_ext _ _ _ (fun s i hi => ?_)
      rw [List.mem_range] at hi
      have hle : 136 * i + 136 ≤ (sts.map leULL256).flatten.length := by
        rw [hclen]
        omega
      rw [List.drop_append_of_le_length (by omega),
        List.take_append_of_le_length (by rw [List.length_drop, hclen]; omega)]
    rw [hroot]
    refine congrArg leULL256 ?_
    have hpre : ((sts.map leULL256).flatten.take (136 * (32 * sts.length / 136))).length
        = 136 * (32 * sts.length / 136) := by
      simp only [List.length_take, hclen]
      omega
    have hsplit : (sts.map leULL256).flatten.take (136 * (32 * sts.length / 136)) ++
          (sts.map leULL256).flatten.drop (136 * (32 * sts.length / 136)) ++
          List.replicate (104 * sts.length) 0
        = (sts.map leULL256).flatten ++ List.replicate (104 * sts.length) 0 := by
      rw [List.take_append_drop]
    rw [← hsplit]
    exact hashFinal_window_off _ _ _ _ _ _ hpre.symm
      (by simp only [List.length_drop, hclen]; omega)
      (by simp only [List.length_drop, hclen]; omega)
      (by simp only [List.length_drop, hclen]; omega)
  · rw [if_neg hM]
    have hq0 : 32 * sts.length / 136 = 0 := by omega
    rw [hq0]
    simp only [List.range_zero, List.foldl_nil, Nat.mul_zero, List.drop_zero]
    refine congrArg leULL256 ?_
    have hsplit0 : ([] : List Nat) ++ (sts.map leULL256).flatten ++
          List.replicate (104 * sts.length) 0
        = (sts.map leULL256).flatten ++ List.replicate (104 * sts.length) 0 := by
      rw [List.nil_append]
    rw [← hsplit0]
    exact hashFinal_window_off _ _ _ _ _ _ rfl hclen.symm
      (by rw [hclen]; omega) (by rw [hclen]; omega)

/-- C2 counterexample: with two fresh leaves and an empty residue (total
input a multiple of D times the rate), the parallel finalization does NOT
finalize each leaf as the claim states: its output differs from the
spec-described tree finalization in which every leaf is finalized before the
root absorbs the chaining values. -/
theorem C2_counterexample :
    Keccak256.FinalizePar [freshState, freshState] (List.replicate 272 0) 0 ≠
      specTreeFinalizeNoResidual [freshState, freshState] := by decide

/-- C2 witness: the raw-chain equality at two fresh leaves. -/
theorem C2_witness :
    1 ≤ ([freshState, freshState] : List KState).length ∧
    (List.replicate 272 (0 : Nat)).length = 136 * ([freshState, freshState] : List KState).length ∧
    Keccak256.FinalizePar [freshState, freshState] (List.replicate 272 0) 0 =
      Keccak256.FinalizeSeq (Keccak256.Update (freshState, [])
        (([freshState, freshState].map leULL256).flatten)) :=
  ⟨by decide, by decide,
   C2_parallel_finalize_raw_chain [freshState, freshState] (List.replicate 272 0)
     (by decide) (by decide)⟩

/-- C9 counterexample: hashing the single byte 0xFF with the sequential
Keccak-256 digest does not produce
0B98DCD198EA0E50A7A244C444E25C23DA30C10FC9A1F270A6637F1F34E67ED2 (that value
is the repository's Skein-256 test vector for the same input, from
SkeinTest.h). -/
theorem C9_counterexample :
    Keccak256.Compute [255] ≠
      [11, 152, 220, 209, 152, 234, 14, 80, 167, 162, 68, 196, 68, 226, 92, 35,
       218, 48, 193, 15, 201, 161, 242, 112, 166, 99, 127, 31, 52, 230, 126, 210] := by decide

/-- C9 (amended): hashing the single byte 0xFF with the sequential Keccak-256
digest (0x01 padding, final five-lane inversion) produces
8B1A944CF13A9A1CF70534D361679DC10CDAB2D224B7EEC785C3E8E97FEC8DB9. -/
theorem C9_keccak256_ff_digest :
    Keccak256.Compute [255] =
      [139, 26, 148, 76, 241, 58, 154, 28, 247, 5, 52, 211, 97, 103, 157, 193,
       12, 218, 178, 210, 36, 183, 238, 199, 133, 195, 232, 233, 127, 236, 141, 185] := by
  decide

/-- C8 counterexample: encrypting the 32-byte plaintext 8000...00 under the
32-byte all-zero key does not produce
1F00B4DD622C0B2951F25970B0ED47A65F513112DACA242B5292CA314917BF94; the
repository's RijndaelTest table pairs that ciphertext with the key 4000...00
and the all-zero plaintext instead. -/
theorem C8_counterexample :
    RHX.Encrypt32 (List.replicate 32 0) (128 :: List.replicate 31 0) ≠
      [31, 0, 180, 221, 98, 44, 11, 41, 81, 242, 89, 112, 176, 237, 71, 166,
       95, 81, 49, 18, 218, 202, 36, 43, 82, 146, 202, 49, 73, 23, 191, 148] := by decide

/-- C8 (amended): per the repository's RijndaelTest vector table (reproduced
by this model), the ciphertext 1F00B4DD...17BF94 belongs to the key 4000...00
with all-zero plaintext; the pair named by the claim (all-zero key, plaintext
8000...00) encrypts to 159A08E4...8B8DBA, and decryption inverts it. -/
theorem C8_rhx256_vectors :
    RHX.Encrypt32 (64 :: List.replicate 31 0) (List.replicate 32 0) =
      [31, 0, 180, 221, 98, 44, 11, 41, 81, 242, 89, 112, 176, 237, 71, 166,
       95, 81, 49, 18, 218, 202, 36, 43, 82, 146, 202, 49, 73, 23, 191, 148] ∧
    RHX.Encrypt32 (List.replicate 32 0) (128 :: List.replicate 31 0) =
      [21, 154, 8, 228, 110, 97, 110, 110, 153, 120, 80, 32, 16, 218, 255, 146,
       46, 179, 98, 231, 125, 202, 175, 2, 234, 235, 115, 84, 235, 139, 141, 186] ∧
    RHX.Decrypt32 (List.replicate 32 0)
      [21, 154, 8, 228, 110, 97, 110, 110, 153, 120, 80, 32, 16, 218, 255, 146,
       46, 179, 98, 231, 125, 202, 175, 2, 234, 235, 115, 84, 235, 139, 141, 186] =
      128 :: List.replicate 31 0 :=
  ⟨by decide, by decide, by decide⟩
